import Mathlib

/-!
# libyt: derived-field bridge, particle pointer accessor, module bootstrap

A shallow embedding of `src/init_libyt_module.cpp` and `src/yt_get_particlesPtr.cpp`.

Conventions of the embedding

* The C globals `g_param_yt` and `g_param_libyt` are the two fields of `Globals`; every
  embedded function receives the globals and hands back the globals it leaves behind.
* A C array together with its element count (`field_list` / `num_fields`,
  `grids_local` / `num_grids_local`) is a `List`; the count is the length of the list.
* `long` is `Int` restricted by `PyArg_ParseTuple` to 64 bits, `int` arithmetic wraps to 32 bits
  (`int_mul`), `size_t` arithmetic is taken modulo `2 ^ 64`.
* A `double` is its IEEE-754 bit pattern; the code only ever stores doubles, it never computes
  with them.
* What lies outside the repository (the allocator, the MPI rank, the Python and NumPy C API, the
  user supplied derivation routines) is taken with its documented behaviour and is named after
  the C entry point it stands for.
* Where the C code leaves defined behaviour (a store through a null pointer, an assignment of a
  routine outside its buffer, a use of the `NULL` returned by NumPy) the embedded call ends
  there, with an outcome of its own.
-/

namespace Libyt

/-! ## Machine values -/

/-- A C `double`, represented by its IEEE-754 binary64 bit pattern. -/
structure Double where
  bits : Nat
deriving DecidableEq

/-- The value `(double) 0` stored by the initialisation loop (all bits clear). -/
def Double.zero : Double := ⟨0⟩

/-- The value `1.0` (sign 0, biased exponent 1023, mantissa 0). -/
def Double.one : Double := ⟨0x3FF0000000000000⟩

/-- Reduction of a mathematical integer to the range of a 32 bit two's complement `int`. -/
def wrap_int (x : Int) : Int := (x + 2 ^ 31) % 2 ^ 32 - 2 ^ 31

/-- Multiplication of two `int` operands, carried out in `int`. -/
def int_mul (a b : Int) : Int := wrap_int (a * b)

/-- The constant `sizeof(double)`. -/
def sizeof_double : Nat := 8

/-- Conversion of an integer to `size_t` (64 bit, unsigned). -/
def to_size_t (x : Int) : Nat := (x % 2 ^ 64).toNat

/-- Largest value of a 64 bit `long`. -/
def LONG_MAX : Int := 2 ^ 63 - 1

/-- Smallest value of a 64 bit `long`. -/
def LONG_MIN : Int := -(2 ^ 63)

/-- Largest object size the allocator can serve at all. -/
def PTRDIFF_MAX : Nat := 2 ^ 63 - 1

/-! ## Derivation routines -/

/-- One assignment `output[index] = value` carried out by a derivation routine. -/
structure Store where
  index : Nat
  value : Double
deriving DecidableEq

/-- A user routine `void (*derived_func)(long, double*)`: from the grid id and the contents of
the buffer on entry, the assignments it performs on the buffer, in program order. -/
abbrev DerivedFunc := Int → List Double → List Store

/-- Effect on the buffer of one assignment that addresses a cell of the buffer. -/
def write (output : List Double) (s : Store) : List Double :=
  output.set s.index s.value

/-- Whether every assignment of a routine addresses one of the `cells` cells of the buffer it
was handed. An assignment to any other address (past the end of the buffer, or anywhere when
the buffer is the null pointer) has no defined behaviour. -/
def stores_inside (stores : List Store) (cells : Nat) : Bool :=
  stores.all fun s => decide (s.index < cells)

/-- The statement `(*derived_func) (gid, output);` for a routine whose assignments all address
cells of the buffer: the buffer after the routine has run. -/
def call_derived_func (derived_func : DerivedFunc) (gid : Int) (output : List Double) :
    List Double :=
  (derived_func gid output).foldl write output

/-! ## Data model -/

/-- Modelled from the spec: the declaration of `yt_field` is not among the sources. A field
descriptor has a name and an optional derivation routine; `none` is the `NULL` pointer. -/
structure yt_field where
  field_name : String
  derived_func : Option DerivedFunc

/-- Modelled from the spec: the declaration of `yt_grid` is not among the sources. A grid
descriptor has an integer id and an ordered triple of cell counts. -/
structure yt_grid where
  id : Int
  dimensions : Nat × Nat × Nat
deriving DecidableEq

/-- Address of externally owned storage. -/
structure Ptr where
  addr : Nat
deriving DecidableEq

/-- The members of the global `g_param_yt` read by the embedded functions. -/
structure yt_param_yt where
  field_list : List yt_field
  grids_local : List yt_grid
  num_species : Int
  particle_list : Ptr

/-- The member `num_fields`. -/
def yt_param_yt.num_fields (p : yt_param_yt) : Int := p.field_list.length

/-- The member `num_grids_local`. -/
def yt_param_yt.num_grids_local (p : yt_param_yt) : Int := p.grids_local.length

/-- The members of the global `g_param_libyt` used by the embedded functions. -/
structure libyt_param where
  libyt_initialized : Bool
  param_yt_set : Bool
  get_particlesPtr : Bool
  script : String
deriving DecidableEq

/-- The process wide state. -/
structure Globals where
  g_param_yt : yt_param_yt
  g_param_libyt : libyt_param

/-- What the surrounding process supplies: the rank reported by `MPI_Comm_rank`, the number of
bytes the allocator can still serve, and the bit patterns found in freshly allocated memory. -/
structure Env where
  MyRank : Int
  heap_free : Nat
  heap_junk : Nat → Double

/-! ## Python values -/

/-- The Python objects a caller can place in the argument tuple. `PyLong` stands for every
object that the format unit `l` converts to an integer. -/
inductive PyObject where
  | PyLong (v : Int)
  | PyUnicode (s : String)
  | PyFloat (d : Double)
  | PyBytes (b : List Nat)
  | PyNone
  | PyList (items : List PyObject)

/-- The exception classes raised by the bridge. -/
inductive PyExc where
  | ValueError
  | AttributeError
deriving DecidableEq

/-- The array object built by `PyArray_SimpleNewFromData` and `PyArray_ENABLEFLAGS`. The field
`data` lists the cells of the buffer that was handed to NumPy; NumPy takes the pointer as it
is and does not compare the size of the buffer with the shape. -/
structure PyArrayObject where
  nd : Nat
  dims : List Int
  typenum : Nat
  data : List Double
  owndata : Bool
deriving DecidableEq

/-- The NumPy type number of `double`. -/
def NPY_DOUBLE : Nat := 12

/-- How a call of the bridge ends: with an array; with `NULL` and a Python exception set; with
the store of line 100 through the null pointer left by a failed allocation (`null_store`); with
an assignment of the routine to an address that is no cell of its buffer (`wild_store`); or
with `PyArray_ENABLEFLAGS` at line 111 applied to the `NULL` that NumPy returned
(`null_array`). The last three have no defined behaviour in C. -/
inductive PyResult where
  | array (a : PyArrayObject)
  | raised (exc : PyExc) (msg : String)
  | null_store
  | wild_store
  | null_array
deriving DecidableEq

/-- The calls into the allocator and into user code made by the bridge. -/
inductive Effect where
  | malloc (bytes : Nat)
  | call (derived_func : DerivedFunc) (gid : Int) (output : List Double)

/-- A finished call of the bridge: the result, the globals afterwards, and the trace of
allocator and routine calls. -/
structure Run where
  result : PyResult
  globals : Globals
  effects : List Effect

/-! ## The bridge `libyt_field_derived_func` -/

/-- The call `PyArg_ParseTuple(args, "ls", &gid, &field_name)`: it succeeds exactly on a tuple
of two objects, the first convertible to a `long` without overflow and the second a `str`
without an embedded null character. -/
def PyArg_ParseTuple_ls (args : List PyObject) : Option (Int × String) :=
  match args with
  | [PyObject.PyLong v, PyObject.PyUnicode s] =>
    if LONG_MIN ≤ v ∧ v ≤ LONG_MAX ∧ Char.ofNat 0 ∉ s.data then some (v, s) else none
  | _ => none

/-- Character by character comparison behind `strcmp`: negative, zero or positive as the first
string sorts before, equal to or after the second. -/
def strcmp_chars : List Char → List Char → Int
  | [], [] => 0
  | [], _ :: _ => -1
  | _ :: _, [] => 1
  | x :: xs, y :: ys =>
    if x = y then strcmp_chars xs ys else if x.toNat < y.toNat then -1 else 1

/-- The library routine `strcmp` on two C strings. -/
def strcmp (a b : String) : Int := strcmp_chars a.data b.data

/-- How the loop over `field_list` (lines 50 to 63) leaves the function. -/
inductive FieldScan where
  | no_match
  | null_func (field_name : String)
  | found (derived_func : DerivedFunc)

/-- The loop `for (int v = 0; v < g_param_yt.num_fields; v++)`: it stops at the first entry
whose name compares equal, either with the entry's routine or at the `return NULL` taken for
a `NULL` routine. -/
def scan_field_list : List yt_field → String → FieldScan
  | [], _ => FieldScan.no_match
  | f :: rest, field_name =>
    if strcmp f.field_name field_name = 0 then
      match f.derived_func with
      | some derived_func => FieldScan.found derived_func
      | none => FieldScan.null_func f.field_name
    else scan_field_list rest field_name

/-- Lines 79 to 81: the three cell counts of a grid copied into `int grid_dimensions[3]`. -/
def copy_dimensions (x : yt_grid) : Int × Int × Int :=
  ((x.dimensions.1 : Int), (x.dimensions.2.1 : Int), (x.dimensions.2.2 : Int))

/-- The loop `for (int lid = 0; lid < g_param_yt.num_grids_local; lid++)`: the local copy
`grid_dimensions` taken from the first entry whose id equals `gid`, or `none` when
`have_Grid` stays false. -/
def scan_grids_local : List yt_grid → Int → Option (Int × Int × Int)
  | [], _ => none
  | x :: rest, gid =>
    if x.id = gid then some (copy_dimensions x) else scan_grids_local rest gid

/-- The initialiser of `gridTotalSize`: a product of three `int` values, evaluated in `int`
from left to right and then widened to `long`. -/
def gridTotalSize (grid_dimensions : Int × Int × Int) : Int :=
  int_mul (int_mul grid_dimensions.1 grid_dimensions.2.1) grid_dimensions.2.2

/-- The allocator: `NULL` (here `none`) when the request exceeds what the heap can still serve
or `PTRDIFF_MAX`, otherwise a fresh block of `size / sizeof(double)` cells with unspecified
contents. -/
def malloc (env : Env) (size : Nat) : Option (List Double) :=
  if size ≤ env.heap_free ∧ size ≤ PTRDIFF_MAX then
    some ((List.range (size / sizeof_double)).map env.heap_junk)
  else none

/-- The loop body `output[i] = (double) 0;` repeated `n` more times starting at index `i`. -/
def zero_loop : Nat → Nat → List Double → List Double
  | 0, _, output => output
  | n + 1, i, output => zero_loop n (i + 1) (output.set i Double.zero)

/-- The loop `for (long i = 0; i < gridTotalSize; i++) output[i] = (double) 0;`. -/
def zero_fill (total : Int) (output : List Double) : List Double :=
  zero_loop total.toNat 0 output

/-- The message of `PyErr_Format` at line 57. -/
def msg_null_func (field_name : String) : String :=
  "In field_list, field_name [ " ++ field_name ++ " ], derived_func does not set properly.\n"

/-- The message of `PyErr_Format` at line 66. -/
def msg_no_field (field_name : String) : String :=
  "Cannot find field_name [ " ++ field_name ++ " ] in field_list.\n"

/-- The message of `PyErr_Format` at line 89 (`%ld` and `%d` print decimal integers). -/
def msg_no_grid (gid MyRank : Int) : String :=
  "Cannot find grid with GID [ " ++ toString gid ++ " ] on MPI rank [" ++ toString MyRank ++ "].\n"

/-- The message of `PyErr_SetString` at line 40. -/
def msg_wrong_input : String :=
  "Wrong input type, expect to be libyt.derived_func(int, str)."

/-- Largest value of NumPy's index type `npy_intp` (64 bit, signed). -/
def NPY_MAX_INTP : Int := 2 ^ 63 - 1

/-- The size computation of NumPy's array constructor: the byte count starts at the size of
an element and is multiplied by each dimension in turn. A dimension of zero is skipped, a
negative dimension is an error, and so is a product beyond `NPY_MAX_INTP` ("array is too
big"). -/
def array_nbytes : Int → List Int → Option Int
  | nbytes, [] => some nbytes
  | nbytes, d :: rest =>
    if d = 0 then array_nbytes nbytes rest
    else if d < 0 then none
    else if NPY_MAX_INTP < nbytes * d then none
    else array_nbytes (nbytes * d) rest

/-- The call `PyArray_SimpleNewFromData(nd, dims, typenum, data)`: an array over the given
buffer that does not own it, or `NULL` (here `none`) when the size computation fails. -/
def PyArray_SimpleNewFromData (nd : Nat) (dims : List Int) (typenum : Nat)
    (data : List Double) : Option PyArrayObject :=
  match array_nbytes sizeof_double dims with
  | some _ => some { nd := nd, dims := dims, typenum := typenum, data := data, owndata := false }
  | none => none

/-- The call `PyArray_ENABLEFLAGS(arr, NPY_ARRAY_OWNDATA)` on an array object. -/
def PyArray_ENABLEFLAGS (arr : PyArrayObject) : PyArrayObject :=
  { arr with owndata := true }

/-- Lines 104 to 113: run the routine on `output`, wrap the buffer in a three dimensional
array of doubles and hand ownership of the data to the array. The call ends at line 104 when
the routine assigns outside the buffer, and at line 111 when NumPy has returned `NULL`, which
the code does not test. -/
def derive_and_wrap (g : Globals) (derived_func : DerivedFunc) (gid : Int)
    (grid_dimensions : Int × Int × Int) (size : Nat) (output : List Double) : Run :=
  if stores_inside (derived_func gid output) output.length = true then
    match PyArray_SimpleNewFromData 3
        [grid_dimensions.1, grid_dimensions.2.1, grid_dimensions.2.2] NPY_DOUBLE
        (call_derived_func derived_func gid output) with
    | some derived_NpArray =>
      { result := PyResult.array (PyArray_ENABLEFLAGS derived_NpArray)
        globals := g
        effects := [Effect.malloc size, Effect.call derived_func gid output] }
    | none =>
      { result := PyResult.null_array
        globals := g
        effects := [Effect.malloc size, Effect.call derived_func gid output] }
  else
    { result := PyResult.wild_store
      globals := g
      effects := [Effect.malloc size, Effect.call derived_func gid output] }

/-- Lines 97 to 113. When `malloc` returns `NULL` the first iteration of the initialisation
loop stores through the null pointer; with no iteration to run (`gridTotalSize <= 0`) the code
goes on with the null pointer, a buffer that has no cells. -/
def allocate_and_derive (env : Env) (g : Globals) (derived_func : DerivedFunc) (gid : Int)
    (grid_dimensions : Int × Int × Int) : Run :=
  let total := gridTotalSize grid_dimensions
  let size := to_size_t (total * sizeof_double)
  match malloc env size with
  | some output => derive_and_wrap g derived_func gid grid_dimensions size (zero_fill total output)
  | none =>
    if 0 < total then
      { result := PyResult.null_store, globals := g, effects := [Effect.malloc size] }
    else derive_and_wrap g derived_func gid grid_dimensions size []

/-- The C extension function `libyt_field_derived_func(self, args)`. -/
def libyt_field_derived_func (env : Env) (g : Globals) (args : List PyObject) : Run :=
  match PyArg_ParseTuple_ls args with
  | none =>
    { result := PyResult.raised PyExc.ValueError msg_wrong_input, globals := g, effects := [] }
  | some (gid, field_name) =>
    match scan_field_list g.g_param_yt.field_list field_name with
    | FieldScan.null_func name =>
      { result := PyResult.raised PyExc.AttributeError (msg_null_func name)
        globals := g, effects := [] }
    | FieldScan.no_match =>
      { result := PyResult.raised PyExc.AttributeError (msg_no_field field_name)
        globals := g, effects := [] }
    | FieldScan.found derived_func =>
      match scan_grids_local g.g_param_yt.grids_local gid with
      | none =>
        { result := PyResult.raised PyExc.AttributeError (msg_no_grid gid env.MyRank)
          globals := g, effects := [] }
      | some grid_dimensions => allocate_and_derive env g derived_func gid grid_dimensions

/-! ## Sample data (section 8 of the specification) -/

/-- A routine that stores `1.0` in each of the eight cells of a grid. -/
def fill_ones : DerivedFunc := fun _ _ => (List.range 8).map fun i => ⟨i, Double.one⟩

/-- A routine that stores nothing. -/
def stores_nothing : DerivedFunc := fun _ _ => []

/-- A routine that stores `1.0` in cell 0 and nowhere else. -/
def first_cell_only : DerivedFunc := fun _ _ => [⟨0, Double.one⟩]

/-- An environment on rank 0 with 1 MiB of heap whose fresh memory holds non-zero junk. -/
def sample_env : Env := { MyRank := 0, heap_free := 2 ^ 20, heap_junk := fun i => ⟨i + 77⟩ }

/-- An environment whose heap is exhausted. -/
def full_env : Env := { MyRank := 0, heap_free := 0, heap_junk := fun i => ⟨i + 77⟩ }

/-- Globals with the given registry and grid table. -/
def globals_of (field_list : List yt_field) (grids_local : List yt_grid) : Globals :=
  { g_param_yt :=
      { field_list := field_list, grids_local := grids_local, num_species := 0
        particle_list := ⟨0⟩ }
    g_param_libyt :=
      { libyt_initialized := true, param_yt_set := true, get_particlesPtr := false
        script := "inline_script" } }

/-- The scenario of the specification: one field `density`, one grid 7 of 2 x 2 x 2 cells. -/
def sample_globals : Globals :=
  globals_of [⟨"density", some fill_ones⟩] [⟨7, (2, 2, 2)⟩]


/-! ## Return codes and logging -/

/-- Modelled from the spec: the macros `YT_SUCCESS` and `YT_FAIL` are defined in a header that is
not among the sources. Every protocol-level operation returns one of these two outcomes. -/
inductive ReturnCode where
  | YT_SUCCESS
  | YT_FAIL
deriving DecidableEq

export ReturnCode (YT_SUCCESS YT_FAIL)

/-- Severity of a log line. -/
inductive LogLevel where
  | debug
  | info
  | error
deriving DecidableEq

/-- One formatted line handed to `log_debug`, `log_info` or `log_error`. -/
structure LogLine where
  level : LogLevel
  text : String
deriving DecidableEq

/-! ## The accessor `yt_get_particlesPtr` -/

/-- A finished call of `yt_get_particlesPtr`: the return code, the pointer stored through the
caller's argument (`none` when nothing was stored), the globals afterwards and the log. -/
structure ParticlesPtrCall where
  status : ReturnCode
  particle_list : Option Ptr
  globals : Globals
  log : List LogLine

/-- Modelled from the spec: the macro `YT_ABORT` is defined in a header that is not among the
sources. It reports the formatted diagnostic as an error and makes the enclosing function
return `YT_FAIL`; nothing after it is executed. Here: inside `yt_get_particlesPtr`. -/
def YT_ABORT_particlesPtr (g : Globals) (text : String) : ParticlesPtrCall :=
  { status := YT_FAIL, particle_list := none, globals := g, log := [⟨LogLevel.error, text⟩] }

/-- The diagnostic of the first check; `__FUNCTION__` is `yt_get_particlesPtr`. -/
def msg_not_initialized : String :=
  "Please invoke yt_init() before calling yt_get_particlesPtr()!\n"

/-- The diagnostic of the second check. -/
def msg_param_not_set : String :=
  "Please invoke yt_set_parameter() before calling yt_get_particlesPtr()!\n"

/-- The diagnostic of the third check (`%d` prints the species count). -/
def msg_no_species (num_species : Int) : String :=
  "num_species == " ++ toString num_species ++
    " <= 0, you don't need to input particle_list, and it is also not initialized!\n"

/-- The function `yt_get_particlesPtr( yt_particle **particle_list )`. -/
def yt_get_particlesPtr (g : Globals) : ParticlesPtrCall :=
  if !g.g_param_libyt.libyt_initialized then
    YT_ABORT_particlesPtr g msg_not_initialized
  else if !g.g_param_libyt.param_yt_set then
    YT_ABORT_particlesPtr g msg_param_not_set
  else if g.g_param_yt.num_species ≤ 0 then
    YT_ABORT_particlesPtr g (msg_no_species g.g_param_yt.num_species)
  else
    { status := YT_SUCCESS
      particle_list := some g.g_param_yt.particle_list
      globals := { g with g_param_libyt := { g.g_param_libyt with get_particlesPtr := true } }
      log := [⟨LogLevel.info, "Getting pointer to particle list information ...\n"⟩,
              ⟨LogLevel.info, "Getting pointer to particle list information  ... done.\n"⟩] }

/-! ## Module bootstrap -/

/-- The embedded interpreter as far as the bootstrap can observe it: whether `Py_Initialize`
has run, the names registered in the table of built-in modules, and the names of the modules
that the import system finds elsewhere. -/
structure PyRuntime where
  started : Bool
  inittab : List String
  path_modules : List String
deriving DecidableEq

/-- The call `PyImport_AppendInittab(name, initfunc)`: a further entry at the end of the table.
The caller in this repository discards the return value. -/
def PyImport_AppendInittab (rt : PyRuntime) (name : String) : PyRuntime :=
  { rt with inittab := rt.inittab ++ [name] }

/-- The module named by a statement of the form `import NAME`, with or without a final
line feed. -/
def import_target (command : String) : Option String :=
  let cs := command.data
  let body := if cs.getLast? = some (Char.ofNat 10) then cs.dropLast else cs
  if "import ".data.isPrefixOf body then some (String.mk (body.drop 7)) else none

/-- The value returned by `PyRun_SimpleString(command)` for an import statement on a started
interpreter: 0 when the module is found, -1 when the statement raises. An interpreter that has
not started runs no statement at all; the call has no defined behaviour there, and the value
-1 given for that case says no more than that nothing was imported. -/
def PyRun_SimpleString (rt : PyRuntime) (command : String) : Int :=
  match import_target command with
  | some m => if rt.started ∧ (m ∈ rt.inittab ∨ m ∈ rt.path_modules) then 0 else -1
  | none => -1

/-- A finished call of a bootstrap function: the return code, the interpreter afterwards, the
statements handed to the interpreter and the log. -/
structure BootstrapCall where
  status : ReturnCode
  runtime : PyRuntime
  commands : List String
  log : List LogLine
deriving DecidableEq

/-- The function `create_libyt_module()`. -/
def create_libyt_module (rt : PyRuntime) : BootstrapCall :=
  { status := YT_SUCCESS, runtime := PyImport_AppendInittab rt "libyt", commands := [], log := [] }

/-- The library routine `strlen`: the number of bytes before the terminator. -/
def strlen (s : String) : Nat := s.utf8ByteSize

/-- The initialiser of `CallYT_CommandWidth`. -/
def CallYT_CommandWidth (script : String) : Int := wrap_int (8 + (strlen script : Int))

/-- The string written by `sprintf( CallYT, "import %s", g_param_libyt.script )`. -/
def CallYT (script : String) : String := "import " ++ script

/-- The diagnostic of the second `YT_ABORT` of `init_libyt_module`. -/
def msg_script_failed (script : String) : String :=
  "Importing YT inline analysis script \"" ++ script ++
    "\" ... failed (please do not include the \".py\" extension)!\n"

/-- The function `init_libyt_module()`; `YT_ABORT` as in `YT_ABORT_particlesPtr`. The
allocation of the command buffer is taken to succeed. -/
def init_libyt_module (g : Globals) (rt : PyRuntime) : BootstrapCall :=
  if PyRun_SimpleString rt "import libyt\n" = 0 then
    if PyRun_SimpleString rt (CallYT g.g_param_libyt.script) = 0 then
      { status := YT_SUCCESS, runtime := rt
        commands := ["import libyt\n", CallYT g.g_param_libyt.script]
        log := [⟨LogLevel.debug, "Import libyt module ... done\n"⟩,
                ⟨LogLevel.debug, "Importing YT inline analysis script \"" ++
                  g.g_param_libyt.script ++ "\" ... done\n"⟩] }
    else
      { status := YT_FAIL, runtime := rt
        commands := ["import libyt\n", CallYT g.g_param_libyt.script]
        log := [⟨LogLevel.debug, "Import libyt module ... done\n"⟩,
                ⟨LogLevel.error, msg_script_failed g.g_param_libyt.script⟩] }
  else
    { status := YT_FAIL, runtime := rt, commands := ["import libyt\n"]
      log := [⟨LogLevel.error, "Import libyt module ... failed!\n"⟩] }

/-- An interpreter that has started without any registration, with the user script on its
path. -/
def fresh_runtime : PyRuntime :=
  { started := true, inittab := [], path_modules := ["inline_script"] }

/-- An interpreter that has not started yet. -/
def cold_runtime : PyRuntime :=
  { started := false, inittab := [], path_modules := ["inline_script"] }

/-! ## Further sample data -/

/-- A registry in which an entry without a routine precedes an entry of the same name that
has one. -/
def shadowed_globals : Globals :=
  globals_of [⟨"density", none⟩, ⟨"density", some fill_ones⟩] [⟨7, (2, 2, 2)⟩]

/-- A registry in which an entry with a routine precedes an entry of the same name that has
none. -/
def late_null_globals : Globals :=
  globals_of [⟨"density", some first_cell_only⟩, ⟨"density", none⟩] [⟨7, (2, 2, 2)⟩]

/-- A grid table in which two entries carry the id 7. -/
def twin_grid_globals : Globals :=
  globals_of [⟨"density", some fill_ones⟩] [⟨7, (2, 2, 2)⟩, ⟨7, (4, 4, 4)⟩]

/-- The registry of the scenario with `first_cell_only` as the routine of `density`. -/
def sparse_globals : Globals :=
  globals_of [⟨"density", some first_cell_only⟩] [⟨7, (2, 2, 2)⟩]

/-- Globals whose lifecycle flags and species count are as given. -/
def lifecycle_globals (libyt_initialized param_yt_set : Bool) (num_species : Int) : Globals :=
  { g_param_yt :=
      { field_list := [], grids_local := [], num_species := num_species
        particle_list := ⟨4096⟩ }
    g_param_libyt :=
      { libyt_initialized := libyt_initialized, param_yt_set := param_yt_set
        get_particlesPtr := false, script := "inline_script" } }

/-- An interpreter that has started without any registration and finds a module named
`libyt` on its path. -/
def stray_runtime : PyRuntime :=
  { started := true, inittab := [], path_modules := ["libyt", "inline_script"] }

/-- A grid table whose only grid has 2048 x 2048 x 512 cells, 2 ^ 31 cells in all, with a
routine that stores nothing. -/
def big_grid_globals : Globals :=
  globals_of [⟨"density", some stores_nothing⟩] [⟨7, (2048, 2048, 512)⟩]

/-- A grid table whose only grid has 1048576 cells along each axis, 2 ^ 60 cells in all. -/
def cube_grid_globals : Globals :=
  globals_of [⟨"density", some stores_nothing⟩] [⟨7, (1048576, 1048576, 1048576)⟩]

/-- A routine that stores `1.0` at index 2 ^ 45 of its buffer, 2 ^ 48 bytes past its start. -/
def far_store : DerivedFunc := fun _ _ => [⟨2 ^ 45, Double.one⟩]

/-- The grid of the scenario with `far_store` as the routine of `density`. -/
def far_store_globals : Globals :=
  globals_of [⟨"density", some far_store⟩] [⟨7, (2, 2, 2)⟩]

/-- A grid of 8 x 3 x 178956971 cells, 2 ^ 32 + 8 cells in all, whose routine stores into cell 0
only. -/
def wrapped_grid_globals : Globals :=
  globals_of [⟨"density", some first_cell_only⟩] [⟨7, (8, 3, 178956971)⟩]

/-- An interpreter that has started with `libyt` registered and the user script on its
path. -/
def ready_runtime : PyRuntime :=
  { started := true, inittab := ["libyt"], path_modules := ["inline_script"] }

/-- An interpreter that has not started yet and in which `libyt` is registered once. -/
def registered_runtime : PyRuntime :=
  { started := false, inittab := ["libyt"], path_modules := ["inline_script"] }

/-- An interpreter that has started with `libyt` registered and no user script on its path. -/
def scriptless_runtime : PyRuntime :=
  { started := true, inittab := ["libyt"], path_modules := [] }

/-! ## Lemmas on the two table scans -/

theorem strcmp_chars_eq_zero (a b : List Char) : strcmp_chars a b = 0 ↔ a = b := by
  induction a generalizing b with
  | nil => cases b <;> simp [strcmp_chars]
  | cons x xs ih =>
    cases b with
    | nil => simp [strcmp_chars]
    | cons y ys =>
      by_cases hxy : x = y
      · simp [strcmp_chars, hxy, ih]
      · by_cases hlt : x.toNat < y.toNat <;> simp [strcmp_chars, hxy, hlt]

theorem strcmp_eq_zero (a b : String) : strcmp a b = 0 ↔ a = b := by
  unfold strcmp
  rw [strcmp_chars_eq_zero]
  constructor
  · intro h
    exact String.ext h
  · intro h
    rw [h]

theorem scan_field_list_no_match (l : List yt_field) (field_name : String)
    (h : ∀ f ∈ l, f.field_name ≠ field_name) :
    scan_field_list l field_name = FieldScan.no_match := by
  induction l with
  | nil => rfl
  | cons f rest ih =>
    have hf : ¬ strcmp f.field_name field_name = 0 := by
      rw [strcmp_eq_zero]
      exact h f (List.mem_cons_self f rest)
    simp only [scan_field_list, hf, if_false]
    exact ih fun x hx => h x (List.mem_cons_of_mem f hx)

theorem scan_field_list_skip (pre rest : List yt_field) (field_name : String)
    (h : ∀ f ∈ pre, f.field_name ≠ field_name) :
    scan_field_list (pre ++ rest) field_name = scan_field_list rest field_name := by
  induction pre with
  | nil => rfl
  | cons f tl ih =>
    have hf : ¬ strcmp f.field_name field_name = 0 := by
      rw [strcmp_eq_zero]
      exact h f (List.mem_cons_self f tl)
    simp only [List.cons_append, scan_field_list, hf, if_false]
    exact ih fun x hx => h x (List.mem_cons_of_mem f hx)

theorem scan_field_list_first (pre post : List yt_field) (f : yt_field) (field_name : String)
    (h : ∀ x ∈ pre, x.field_name ≠ field_name) (hf : f.field_name = field_name) :
    scan_field_list (pre ++ f :: post) field_name =
      match f.derived_func with
      | some derived_func => FieldScan.found derived_func
      | none => FieldScan.null_func f.field_name := by
  rw [scan_field_list_skip pre (f :: post) field_name h]
  have h0 : strcmp f.field_name field_name = 0 := (strcmp_eq_zero _ _).mpr hf
  simp only [scan_field_list, h0, if_true]

theorem scan_grids_local_none (l : List yt_grid) (gid : Int) (h : ∀ x ∈ l, x.id ≠ gid) :
    scan_grids_local l gid = none := by
  induction l with
  | nil => rfl
  | cons x rest ih =>
    have hx : ¬ x.id = gid := h x (List.mem_cons_self x rest)
    simp only [scan_grids_local, hx, if_false]
    exact ih fun y hy => h y (List.mem_cons_of_mem x hy)

theorem scan_grids_local_first (pre post : List yt_grid) (x : yt_grid) (gid : Int)
    (h : ∀ y ∈ pre, y.id ≠ gid) (hx : x.id = gid) :
    scan_grids_local (pre ++ x :: post) gid = some (copy_dimensions x) := by
  induction pre with
  | nil => simp [scan_grids_local, hx]
  | cons y tl ih =>
    have hy : ¬ y.id = gid := h y (List.mem_cons_self y tl)
    simp only [List.cons_append, scan_grids_local, hy, if_false]
    exact ih fun z hz => h z (List.mem_cons_of_mem y hz)

theorem scan_grids_local_some (l : List yt_grid) (gid : Int) (dims : Int × Int × Int)
    (h : scan_grids_local l gid = some dims) :
    ∃ pre x post, l = pre ++ x :: post ∧ (∀ y ∈ pre, y.id ≠ gid) ∧ x.id = gid ∧
      dims = copy_dimensions x := by
  induction l with
  | nil => simp [scan_grids_local] at h
  | cons y tl ih =>
    by_cases hy : y.id = gid
    · refine ⟨[], y, tl, rfl, ?_, hy, ?_⟩
      · intro z hz
        cases hz
      · simp only [scan_grids_local, hy, if_true] at h
        exact (Option.some.inj h).symm
    · simp only [scan_grids_local, hy, if_false] at h
      obtain ⟨pre, x, post, hl, hpre, hx, hd⟩ := ih h
      refine ⟨y :: pre, x, post, by rw [hl]; rfl, ?_, hx, hd⟩
      intro z hz
      rcases List.mem_cons.mp hz with hzy | hzp
      · rw [hzy]
        exact hy
      · exact hpre z hzp

/-! ## Lemmas on the buffer -/

theorem zero_loop_length (n i : Nat) (output : List Double) :
    (zero_loop n i output).length = output.length := by
  induction n generalizing i output with
  | zero => rfl
  | succ k ih => simp [zero_loop, ih]

theorem zero_loop_getElem? (n i j : Nat) (output : List Double) (h : i + n ≤ output.length) :
    (zero_loop n i output)[j]? =
      if i ≤ j ∧ j < i + n then some Double.zero else output[j]? := by
  induction n generalizing i output with
  | zero =>
    have hno : ¬ (i ≤ j ∧ j < i + 0) := by omega
    rw [zero_loop, if_neg hno]
  | succ k ih =>
    have hlen : i + 1 + k ≤ (output.set i Double.zero).length := by
      rw [List.length_set]
      omega
    rw [zero_loop, ih (i + 1) (output.set i Double.zero) hlen, List.getElem?_set]
    by_cases hij : i = j
    · subst hij
      have h1 : ¬ (i + 1 ≤ i ∧ i < i + 1 + k) := by omega
      have h2 : i ≤ i ∧ i < i + (k + 1) := by omega
      have h3 : i < output.length := by omega
      simp [h1, h2, h3]
    · by_cases hin : i + 1 ≤ j ∧ j < i + 1 + k
      · have h2 : i ≤ j ∧ j < i + (k + 1) := by omega
        simp [hin, h2]
      · have h2 : ¬ (i ≤ j ∧ j < i + (k + 1)) := by omega
        simp [hin, h2, hij]

theorem zero_fill_eq_replicate (total : Int) (output : List Double)
    (h : output.length = total.toNat) :
    zero_fill total output = List.replicate total.toNat Double.zero := by
  apply List.ext_getElem?
  intro j
  unfold zero_fill
  rw [zero_loop_getElem? total.toNat 0 j output (by omega), List.getElem?_replicate]
  by_cases hj : j < total.toNat
  · have h2 : 0 ≤ j ∧ j < 0 + total.toNat := by omega
    simp [hj, h2]
  · have h2 : ¬ (0 ≤ j ∧ j < 0 + total.toNat) := by omega
    have h3 : output.length ≤ j := by omega
    simp [hj, h2, List.getElem?_eq_none h3]

theorem foldl_write_length (stores : List Store) (output : List Double) :
    (stores.foldl write output).length = output.length := by
  induction stores generalizing output with
  | nil => rfl
  | cons s rest ih => simp [List.foldl, ih, write]

theorem call_derived_func_length (derived_func : DerivedFunc) (gid : Int)
    (output : List Double) :
    (call_derived_func derived_func gid output).length = output.length :=
  foldl_write_length _ _

theorem foldl_write_untouched (stores : List Store) (output : List Double) (i : Nat)
    (h : ∀ s ∈ stores, s.index ≠ i) :
    (stores.foldl write output)[i]? = output[i]? := by
  induction stores generalizing output with
  | nil => rfl
  | cons s rest ih =>
    have hs : s.index ≠ i := h s (List.mem_cons_self s rest)
    rw [List.foldl, ih (write output s) fun t ht => h t (List.mem_cons_of_mem s ht)]
    exact List.getElem?_set_ne hs

theorem foldl_write_last (before after : List Store) (s : Store) (output : List Double)
    (hlt : s.index < output.length) (h : ∀ t ∈ after, t.index ≠ s.index) :
    ((before ++ s :: after).foldl write output)[s.index]? = some s.value := by
  rw [List.foldl_append, List.foldl, foldl_write_untouched after _ s.index h]
  have hlen : s.index < (before.foldl write output).length := by
    rw [foldl_write_length]
    exact hlt
  exact List.getElem?_set_self hlen

/-! ## Lemmas on sizes and the allocator -/

theorem wrap_int_bounds (x : Int) : -(2 ^ 31) ≤ wrap_int x ∧ wrap_int x < 2 ^ 31 := by
  unfold wrap_int
  omega

theorem wrap_int_of_fits (x : Int) (h0 : 0 ≤ x) (h1 : x < 2 ^ 31) : wrap_int x = x := by
  unfold wrap_int
  omega

theorem gridTotalSize_bounds (dims : Int × Int × Int) :
    -(2 ^ 31) ≤ gridTotalSize dims ∧ gridTotalSize dims < 2 ^ 31 :=
  wrap_int_bounds _

theorem malloc_length (env : Env) (size : Nat) (output : List Double)
    (h : malloc env size = some output) : output.length = size / sizeof_double := by
  unfold malloc at h
  split at h
  · cases h
    simp
  · cases h

theorem malloc_le (env : Env) (size : Nat) (output : List Double)
    (h : malloc env size = some output) : size ≤ PTRDIFF_MAX := by
  unfold malloc at h
  split at h
  · rename_i hc
    exact hc.2
  · cases h

theorem malloc_gridTotalSize (env : Env) (dims : Int × Int × Int) (output : List Double)
    (h : malloc env (to_size_t (gridTotalSize dims * sizeof_double)) = some output) :
    output.length = (gridTotalSize dims).toNat := by
  have hb := gridTotalSize_bounds dims
  have hle := malloc_le env _ output h
  have hlen := malloc_length env _ output h
  unfold to_size_t sizeof_double PTRDIFF_MAX at *
  omega

theorem gridTotalSize_of_fits (x : yt_grid)
    (h : x.dimensions.1 * x.dimensions.2.1 * x.dimensions.2.2 < 2 ^ 31) :
    gridTotalSize (copy_dimensions x) =
      ((x.dimensions.1 * x.dimensions.2.1 * x.dimensions.2.2 : Nat) : Int) := by
  obtain ⟨id, a, b, c⟩ := x
  simp only [gridTotalSize, copy_dimensions, int_mul] at *
  rcases Nat.eq_zero_or_pos c with hc | hc
  · subst hc
    simp [wrap_int]
  · have hab : a * b ≤ a * b * c := Nat.le_mul_of_pos_right _ hc
    have h1 : wrap_int ((a : Int) * (b : Int)) = ((a * b : Nat) : Int) := by
      rw [← Nat.cast_mul]
      apply wrap_int_of_fits
      · exact Int.ofNat_nonneg _
      · have : a * b < 2 ^ 31 := lt_of_le_of_lt hab h
        exact_mod_cast this
    rw [h1, ← Nat.cast_mul]
    apply wrap_int_of_fits
    · exact Int.ofNat_nonneg _
    · exact_mod_cast h

/-! ## The path through the bridge once field and grid are resolved -/

theorem stores_inside_iff (stores : List Store) (cells : Nat) :
    stores_inside stores cells = true ↔ ∀ s ∈ stores, s.index < cells := by
  simp [stores_inside, List.all_eq_true]

theorem derive_and_wrap_effects (g : Globals) (d : DerivedFunc) (gid : Int)
    (dims : Int × Int × Int) (size : Nat) (output : List Double) :
    (derive_and_wrap g d gid dims size output).effects =
      [Effect.malloc size, Effect.call d gid output] := by
  unfold derive_and_wrap
  split
  · split <;> rfl
  · rfl

theorem derive_and_wrap_globals (g : Globals) (d : DerivedFunc) (gid : Int)
    (dims : Int × Int × Int) (size : Nat) (output : List Double) :
    (derive_and_wrap g d gid dims size output).globals = g := by
  unfold derive_and_wrap
  split
  · split <;> rfl
  · rfl

theorem derive_and_wrap_not_raised (g : Globals) (d : DerivedFunc) (gid : Int)
    (dims : Int × Int × Int) (size : Nat) (output : List Double) (exc : PyExc) (msg : String) :
    (derive_and_wrap g d gid dims size output).result ≠ PyResult.raised exc msg := by
  unfold derive_and_wrap
  split
  · split <;> exact fun h => by cases h
  · exact fun h => by cases h

theorem derive_and_wrap_array (g : Globals) (d : DerivedFunc) (gid : Int)
    (dims : Int × Int × Int) (size : Nat) (output : List Double) (a : PyArrayObject)
    (h : (derive_and_wrap g d gid dims size output).result = PyResult.array a) :
    stores_inside (d gid output) output.length = true ∧
      (array_nbytes sizeof_double [dims.1, dims.2.1, dims.2.2]).isSome = true ∧
      a = ⟨3, [dims.1, dims.2.1, dims.2.2], NPY_DOUBLE, call_derived_func d gid output, true⟩ := by
  unfold derive_and_wrap at h
  split at h
  · rename_i hs
    unfold PyArray_SimpleNewFromData at h
    cases hn : array_nbytes sizeof_double [dims.1, dims.2.1, dims.2.2] with
    | none =>
      rw [hn] at h
      cases h
    | some n =>
      rw [hn] at h
      refine ⟨hs, rfl, ?_⟩
      exact (PyResult.array.inj h).symm
  · cases h

theorem derive_and_wrap_ok (g : Globals) (d : DerivedFunc) (gid : Int)
    (dims : Int × Int × Int) (size : Nat) (output : List Double)
    (hs : stores_inside (d gid output) output.length = true)
    (hn : (array_nbytes sizeof_double [dims.1, dims.2.1, dims.2.2]).isSome = true) :
    (derive_and_wrap g d gid dims size output).result =
      PyResult.array
        ⟨3, [dims.1, dims.2.1, dims.2.2], NPY_DOUBLE, call_derived_func d gid output, true⟩ := by
  obtain ⟨n, hn2⟩ := Option.isSome_iff_exists.mp hn
  simp only [derive_and_wrap, hs, if_true, PyArray_SimpleNewFromData, hn2, PyArray_ENABLEFLAGS]

theorem bridge_resolved (env : Env) (g : Globals) (args : List PyObject) (gid : Int)
    (field_name : String) (derived_func : DerivedFunc) (dims : Int × Int × Int)
    (hargs : PyArg_ParseTuple_ls args = some (gid, field_name))
    (hf : scan_field_list g.g_param_yt.field_list field_name = FieldScan.found derived_func)
    (hg : scan_grids_local g.g_param_yt.grids_local gid = some dims) :
    libyt_field_derived_func env g args = allocate_and_derive env g derived_func gid dims := by
  simp only [libyt_field_derived_func, hargs, hf, hg]

theorem allocate_and_derive_some (env : Env) (g : Globals) (derived_func : DerivedFunc)
    (gid : Int) (dims : Int × Int × Int) (output : List Double)
    (h : malloc env (to_size_t (gridTotalSize dims * sizeof_double)) = some output) :
    allocate_and_derive env g derived_func gid dims =
      derive_and_wrap g derived_func gid dims (to_size_t (gridTotalSize dims * sizeof_double))
        (List.replicate (gridTotalSize dims).toNat Double.zero) := by
  simp only [allocate_and_derive, h]
  rw [zero_fill_eq_replicate _ _ (malloc_gridTotalSize env dims output h)]

theorem allocate_and_derive_array (env : Env) (g : Globals) (derived_func : DerivedFunc)
    (gid : Int) (dims : Int × Int × Int) (a : PyArrayObject)
    (h : (allocate_and_derive env g derived_func gid dims).result = PyResult.array a) :
    allocate_and_derive env g derived_func gid dims =
      derive_and_wrap g derived_func gid dims (to_size_t (gridTotalSize dims * sizeof_double))
        (List.replicate (gridTotalSize dims).toNat Double.zero) := by
  cases hm : malloc env (to_size_t (gridTotalSize dims * sizeof_double)) with
  | some output => exact allocate_and_derive_some env g derived_func gid dims output hm
  | none =>
    by_cases hpos : 0 < gridTotalSize dims
    · simp [allocate_and_derive, hm, hpos] at h
    · have h0 : (gridTotalSize dims).toNat = 0 := by omega
      simp only [allocate_and_derive, hm, hpos, if_false, h0, List.replicate]

theorem scan_field_list_found (l : List yt_field) (field_name : String) (d : DerivedFunc)
    (h : scan_field_list l field_name = FieldScan.found d) :
    ∃ pre f post, l = pre ++ f :: post ∧ (∀ e ∈ pre, e.field_name ≠ field_name) ∧
      f.field_name = field_name ∧ f.derived_func = some d := by
  induction l with
  | nil => simp [scan_field_list] at h
  | cons e tl ih =>
    by_cases he : strcmp e.field_name field_name = 0
    · refine ⟨[], e, tl, rfl, ?_, (strcmp_eq_zero _ _).mp he, ?_⟩
      · intro z hz
        cases hz
      · simp only [scan_field_list, he, if_true] at h
        cases hd : e.derived_func with
        | none => simp [hd] at h
        | some d2 =>
          simp only [hd, FieldScan.found.injEq] at h
          rw [h]
    · simp only [scan_field_list, he, if_false] at h
      obtain ⟨pre, f, post, hl, hpre, hf, hd⟩ := ih h
      refine ⟨e :: pre, f, post, by rw [hl]; rfl, ?_, hf, hd⟩
      intro z hz
      rcases List.mem_cons.mp hz with hze | hzp
      · rw [hze]
        exact fun hn => he ((strcmp_eq_zero _ _).mpr hn)
      · exact hpre z hzp

theorem bridge_array_resolved (env : Env) (g : Globals) (args : List PyObject)
    (a : PyArrayObject)
    (h : (libyt_field_derived_func env g args).result = PyResult.array a) :
    ∃ gid field_name d dims,
      PyArg_ParseTuple_ls args = some (gid, field_name) ∧
      scan_field_list g.g_param_yt.field_list field_name = FieldScan.found d ∧
      scan_grids_local g.g_param_yt.grids_local gid = some dims := by
  cases hargs : PyArg_ParseTuple_ls args with
  | none => simp [libyt_field_derived_func, hargs] at h
  | some p =>
    obtain ⟨gid, field_name⟩ := p
    cases hf : scan_field_list g.g_param_yt.field_list field_name with
    | no_match => simp [libyt_field_derived_func, hargs, hf] at h
    | null_func name => simp [libyt_field_derived_func, hargs, hf] at h
    | found d =>
      cases hg : scan_grids_local g.g_param_yt.grids_local gid with
      | none => simp [libyt_field_derived_func, hargs, hf, hg] at h
      | some dims => exact ⟨gid, field_name, d, dims, rfl, hf, hg⟩

theorem allocate_and_derive_globals (env : Env) (g : Globals) (d : DerivedFunc) (gid : Int)
    (dims : Int × Int × Int) : (allocate_and_derive env g d gid dims).globals = g := by
  cases hm : malloc env (to_size_t (gridTotalSize dims * sizeof_double)) with
  | some output => simp only [allocate_and_derive, hm, derive_and_wrap_globals]
  | none =>
    by_cases hpos : 0 < gridTotalSize dims
    · simp only [allocate_and_derive, hm, hpos, if_true]
    · simp only [allocate_and_derive, hm, hpos, if_false, derive_and_wrap_globals]

theorem bridge_keeps_globals (env : Env) (g : Globals) (args : List PyObject) :
    (libyt_field_derived_func env g args).globals = g := by
  unfold libyt_field_derived_func
  cases PyArg_ParseTuple_ls args with
  | none => rfl
  | some p =>
    obtain ⟨gid, field_name⟩ := p
    simp only
    cases scan_field_list g.g_param_yt.field_list field_name with
    | no_match => rfl
    | null_func name => rfl
    | found d =>
      simp only
      cases scan_grids_local g.g_param_yt.grids_local gid with
      | none => rfl
      | some dims => exact allocate_and_derive_globals env g d gid dims

theorem bridge_raised_trace (env : Env) (g : Globals) (args : List PyObject) (exc : PyExc)
    (msg : String) (h : (libyt_field_derived_func env g args).result = PyResult.raised exc msg) :
    (libyt_field_derived_func env g args).effects = [] := by
  cases hargs : PyArg_ParseTuple_ls args with
  | none => simp only [libyt_field_derived_func, hargs]
  | some p =>
    obtain ⟨gid, field_name⟩ := p
    cases hf : scan_field_list g.g_param_yt.field_list field_name with
    | no_match => simp only [libyt_field_derived_func, hargs, hf]
    | null_func name => simp only [libyt_field_derived_func, hargs, hf]
    | found d =>
      cases hg : scan_grids_local g.g_param_yt.grids_local gid with
      | none => simp only [libyt_field_derived_func, hargs, hf, hg]
      | some dims =>
        rw [bridge_resolved env g args gid field_name d dims hargs hf hg] at h
        cases hm : malloc env (to_size_t (gridTotalSize dims * sizeof_double)) with
        | some output =>
          simp only [allocate_and_derive, hm] at h
          exact absurd h (derive_and_wrap_not_raised g d gid dims _ _ exc msg)
        | none =>
          by_cases hpos : 0 < gridTotalSize dims
          · simp [allocate_and_derive, hm, hpos] at h
          · simp only [allocate_and_derive, hm, hpos, if_false] at h
            exact absurd h (derive_and_wrap_not_raised g d gid dims _ _ exc msg)

theorem bridge_array_trace (env : Env) (g : Globals) (args : List PyObject) (a : PyArrayObject)
    (h : (libyt_field_derived_func env g args).result = PyResult.array a) :
    ∃ gid field_name d dims,
      PyArg_ParseTuple_ls args = some (gid, field_name) ∧
      scan_field_list g.g_param_yt.field_list field_name = FieldScan.found d ∧
      scan_grids_local g.g_param_yt.grids_local gid = some dims ∧
      (libyt_field_derived_func env g args).effects =
        [Effect.malloc (to_size_t (gridTotalSize dims * sizeof_double)),
          Effect.call d gid (List.replicate (gridTotalSize dims).toNat Double.zero)] ∧
      a.data = call_derived_func d gid
        (List.replicate (gridTotalSize dims).toNat Double.zero) ∧
      (0 ≤ gridTotalSize dims →
        (malloc env (to_size_t (gridTotalSize dims * sizeof_double))).isSome = true) := by
  obtain ⟨gid, field_name, d, dims, hargs, hf, hg⟩ := bridge_array_resolved env g args a h
  have hrun := bridge_resolved env g args gid field_name d dims hargs hf hg
  rw [hrun] at h
  have hder := allocate_and_derive_array env g d gid dims a h
  refine ⟨gid, field_name, d, dims, hargs, hf, hg, ?_, ?_, ?_⟩
  · rw [hrun, hder, derive_and_wrap_effects]
  · rw [hder] at h
    rw [(derive_and_wrap_array g d gid dims _ _ a h).2.2]
  · intro hnonneg
    cases hm : malloc env (to_size_t (gridTotalSize dims * sizeof_double)) with
    | some output => rfl
    | none =>
      by_cases hpos : 0 < gridTotalSize dims
      · simp [allocate_and_derive, hm, hpos] at h
      · have hzero : gridTotalSize dims = 0 := by omega
        have hsome : (malloc env (to_size_t (gridTotalSize dims * sizeof_double))).isSome
            = true := by
          rw [hzero]
          simp [malloc, to_size_t, PTRDIFF_MAX]
        rw [hm] at hsome
        exact hsome

/-! ## Claims on `libyt_field_derived_func` -/

/-- C1, as stated, fails in five ways. An entry named `density` with a routine and a grid with
id 7 exist, yet the call ends with the "does not set properly" error because an earlier entry
of that name has no routine. A grid with id 7 and dimensions (4, 4, 4) exists, yet the array
has shape (2, 2, 2), the dimensions of the earlier entry with id 7. With an exhausted heap
the call ends in a store through the null pointer instead of an array. For a grid of 1048576
cells along each axis the allocation succeeds (the wrapped size is 0) but NumPy rejects the
shape and the call ends at line 111 on the `NULL` it got. And for the grid of 2 x 2 x 2
cells with a routine that stores 2 ^ 48 bytes past the start of its buffer the call ends in
that assignment outside the buffer. -/
theorem derived_func_shape_counterexample :
    ((∃ f ∈ shadowed_globals.g_param_yt.field_list,
        f.field_name = "density" ∧ f.derived_func.isSome = true) ∧
      (∃ x ∈ shadowed_globals.g_param_yt.grids_local, x.id = 7) ∧
      (libyt_field_derived_func sample_env shadowed_globals
          [PyObject.PyLong 7, PyObject.PyUnicode "density"]).result =
        PyResult.raised PyExc.AttributeError
          "In field_list, field_name [ density ], derived_func does not set properly.\n") ∧
    ((∃ f ∈ twin_grid_globals.g_param_yt.field_list,
        f.field_name = "density" ∧ f.derived_func.isSome = true) ∧
      (∃ x ∈ twin_grid_globals.g_param_yt.grids_local, x.id = 7 ∧ x.dimensions = (4, 4, 4)) ∧
      (libyt_field_derived_func sample_env twin_grid_globals
          [PyObject.PyLong 7, PyObject.PyUnicode "density"]).result =
        PyResult.array ⟨3, [2, 2, 2], NPY_DOUBLE, List.replicate 8 Double.one, true⟩) ∧
    ((∃ f ∈ sample_globals.g_param_yt.field_list,
        f.field_name = "density" ∧ f.derived_func.isSome = true) ∧
      (∃ x ∈ sample_globals.g_param_yt.grids_local, x.id = 7) ∧
      (libyt_field_derived_func full_env sample_globals
          [PyObject.PyLong 7, PyObject.PyUnicode "density"]).result = PyResult.null_store) ∧
    ((∃ f ∈ cube_grid_globals.g_param_yt.field_list,
        f.field_name = "density" ∧ f.derived_func.isSome = true) ∧
      (∃ x ∈ cube_grid_globals.g_param_yt.grids_local, x.id = 7) ∧
      (malloc sample_env (to_size_t (gridTotalSize (1048576, 1048576, 1048576) *
        sizeof_double))).isSome = true ∧
      array_nbytes sizeof_double [1048576, 1048576, 1048576] = none ∧
      (libyt_field_derived_func sample_env cube_grid_globals
          [PyObject.PyLong 7, PyObject.PyUnicode "density"]).result = PyResult.null_array) ∧
    ((∃ f ∈ far_store_globals.g_param_yt.field_list,
        f.field_name = "density" ∧ f.derived_func.isSome = true) ∧
      (∃ x ∈ far_store_globals.g_param_yt.grids_local, x.id = 7) ∧
      (malloc sample_env (to_size_t (gridTotalSize (2, 2, 2) * sizeof_double))).isSome = true ∧
      (libyt_field_derived_func sample_env far_store_globals
          [PyObject.PyLong 7, PyObject.PyUnicode "density"]).result = PyResult.wild_store) := by
  refine ⟨⟨?_, ?_, by decide⟩, ⟨?_, ?_, by decide⟩, ⟨?_, ?_, by decide⟩,
    ⟨?_, ?_, by decide, by decide, by decide⟩, ⟨?_, ?_, by decide, by decide⟩⟩
  · exact ⟨⟨"density", some fill_ones⟩, by simp [shadowed_globals, globals_of], rfl, rfl⟩
  · exact ⟨⟨7, (2, 2, 2)⟩, by simp [shadowed_globals, globals_of], rfl⟩
  · exact ⟨⟨"density", some fill_ones⟩, by simp [twin_grid_globals, globals_of], rfl, rfl⟩
  · exact ⟨⟨7, (4, 4, 4)⟩, by simp [twin_grid_globals, globals_of], rfl, rfl⟩
  · exact ⟨⟨"density", some fill_ones⟩, by simp [sample_globals, globals_of], rfl, rfl⟩
  · exact ⟨⟨7, (2, 2, 2)⟩, by simp [sample_globals, globals_of], rfl⟩
  · exact ⟨⟨"density", some stores_nothing⟩, by simp [cube_grid_globals, globals_of], rfl, rfl⟩
  · exact ⟨⟨7, (1048576, 1048576, 1048576)⟩, by simp [cube_grid_globals, globals_of], rfl⟩
  · exact ⟨⟨"density", some far_store⟩, by simp [far_store_globals, globals_of], rfl, rfl⟩
  · exact ⟨⟨7, (2, 2, 2)⟩, by simp [far_store_globals, globals_of], rfl⟩

/-- C1, amended: when the first registry entry named `field_name` has a derivation routine,
`x` is the first entry of the local grid table with id `gid`, the allocation of the output
buffer succeeds, the routine assigns only to cells of the buffer it is handed, and NumPy
accepts the shape (the size computation over the three dimensions of `x` does not fail), the
call returns an array with three dimensions, element type double, ownership of its data, and
shape exactly the three dimensions of `x`, in that order. -/
theorem derived_func_shape (env : Env) (g : Globals) (args : List PyObject) (gid : Int)
    (field_name : String) (pre post : List yt_field) (f : yt_field) (d : DerivedFunc)
    (gpre gpost : List yt_grid) (x : yt_grid)
    (hargs : PyArg_ParseTuple_ls args = some (gid, field_name))
    (hfl : g.g_param_yt.field_list = pre ++ f :: post)
    (hpre : ∀ e ∈ pre, e.field_name ≠ field_name)
    (hname : f.field_name = field_name)
    (hd : f.derived_func = some d)
    (hgl : g.g_param_yt.grids_local = gpre ++ x :: gpost)
    (hgpre : ∀ y ∈ gpre, y.id ≠ gid)
    (hid : x.id = gid)
    (halloc : (malloc env
      (to_size_t (gridTotalSize (copy_dimensions x) * sizeof_double))).isSome = true)
    (hstores : ∀ s ∈ d gid
        (List.replicate (gridTotalSize (copy_dimensions x)).toNat Double.zero),
      s.index < (gridTotalSize (copy_dimensions x)).toNat)
    (hnumpy : (array_nbytes sizeof_double
      [(x.dimensions.1 : Int), (x.dimensions.2.1 : Int), (x.dimensions.2.2 : Int)]).isSome
        = true) :
    ∃ a, (libyt_field_derived_func env g args).result = PyResult.array a ∧
      a.nd = 3 ∧ a.typenum = NPY_DOUBLE ∧ a.owndata = true ∧
      a.dims = [(x.dimensions.1 : Int), (x.dimensions.2.1 : Int), (x.dimensions.2.2 : Int)] := by
  have hf : scan_field_list g.g_param_yt.field_list field_name = FieldScan.found d := by
    rw [hfl, scan_field_list_first pre post f field_name hpre hname, hd]
  have hg : scan_grids_local g.g_param_yt.grids_local gid = some (copy_dimensions x) := by
    rw [hgl, scan_grids_local_first gpre gpost x gid hgpre hid]
  obtain ⟨output, hout⟩ := Option.isSome_iff_exists.mp halloc
  have hin : stores_inside
      (d gid (List.replicate (gridTotalSize (copy_dimensions x)).toNat Double.zero))
      (List.replicate (gridTotalSize (copy_dimensions x)).toNat Double.zero).length = true := by
    rw [stores_inside_iff, List.length_replicate]
    exact hstores
  rw [bridge_resolved env g args gid field_name d _ hargs hf hg,
    allocate_and_derive_some env g d gid _ output hout,
    derive_and_wrap_ok g d gid (copy_dimensions x) _ _ hin hnumpy]
  exact ⟨_, rfl, rfl, rfl, rfl, rfl⟩

/-- C1, amended, at the scenario of the specification: grid 7 of 2 x 2 x 2 cells and the
field `density`. -/
theorem derived_func_shape_witness :
    ∃ a, (libyt_field_derived_func sample_env sample_globals
        [PyObject.PyLong 7, PyObject.PyUnicode "density"]).result = PyResult.array a ∧
      a.nd = 3 ∧ a.typenum = NPY_DOUBLE ∧ a.owndata = true ∧ a.dims = [2, 2, 2] :=
  derived_func_shape sample_env sample_globals
    [PyObject.PyLong 7, PyObject.PyUnicode "density"] 7 "density"
    [] [] ⟨"density", some fill_ones⟩ fill_ones [] [] ⟨7, (2, 2, 2)⟩
    (by decide) rfl (by simp) rfl rfl rfl (by simp) rfl (by decide) (by decide) (by decide)

/-- C2: when no registry entry has a name equal to `field_name`, the call raises the attribute
error "Cannot find field_name [ field_name ] in field_list.", whatever the grid id and the grid
table; the result is no array, nothing is allocated and no routine is called. -/
theorem unknown_field_fails (env : Env) (g : Globals) (args : List PyObject) (gid : Int)
    (field_name : String)
    (hargs : PyArg_ParseTuple_ls args = some (gid, field_name))
    (hnone : ∀ f ∈ g.g_param_yt.field_list, f.field_name ≠ field_name) :
    (libyt_field_derived_func env g args).result =
        PyResult.raised PyExc.AttributeError
          ("Cannot find field_name [ " ++ field_name ++ " ] in field_list.\n") ∧
      (∀ a, (libyt_field_derived_func env g args).result ≠ PyResult.array a) ∧
      (libyt_field_derived_func env g args).effects = [] := by
  have hf := scan_field_list_no_match g.g_param_yt.field_list field_name hnone
  have hrun : (libyt_field_derived_func env g args).result =
        PyResult.raised PyExc.AttributeError (msg_no_field field_name) ∧
      (libyt_field_derived_func env g args).effects = [] := by
    simp only [libyt_field_derived_func, hargs, hf]
    exact ⟨trivial, trivial⟩
  refine ⟨hrun.1, ?_, hrun.2⟩
  intro a ha
  rw [hrun.1] at ha
  cases ha

/-- C2 at the scenario of the specification: the field `temperature` is requested from a
registry that only has `density`. -/
theorem unknown_field_fails_witness :
    (libyt_field_derived_func sample_env sample_globals
        [PyObject.PyLong 7, PyObject.PyUnicode "temperature"]).result =
      PyResult.raised PyExc.AttributeError
        ("Cannot find field_name [ " ++ "temperature" ++ " ] in field_list.\n") :=
  (unknown_field_fails sample_env sample_globals
    [PyObject.PyLong 7, PyObject.PyUnicode "temperature"] 7 "temperature" (by decide)
    (by simp [sample_globals, globals_of])).1

/-- C3, as stated, fails: the registry holds an entry `density` without a routine, yet the
call for `density` returns an array, because an earlier entry of that name has a routine. -/
theorem null_routine_fails_counterexample :
    (∃ f ∈ late_null_globals.g_param_yt.field_list,
        f.field_name = "density" ∧ f.derived_func.isNone = true) ∧
      (libyt_field_derived_func sample_env late_null_globals
          [PyObject.PyLong 7, PyObject.PyUnicode "density"]).result =
        PyResult.array ⟨3, [2, 2, 2], NPY_DOUBLE,
          Double.one :: List.replicate 7 Double.zero, true⟩ := by
  refine ⟨⟨⟨"density", none⟩, by simp [late_null_globals, globals_of], rfl, rfl⟩, by decide⟩

/-- C3, amended: when the first registry entry named `field_name` has no derivation routine,
the call raises the attribute error "In field_list, field_name [ field_name ], derived_func does
not set properly.", whatever the grid id and the grid table; the result is no array, nothing is
allocated and no routine is called. -/
theorem null_routine_fails (env : Env) (g : Globals) (args : List PyObject) (gid : Int)
    (field_name : String) (pre post : List yt_field) (f : yt_field)
    (hargs : PyArg_ParseTuple_ls args = some (gid, field_name))
    (hfl : g.g_param_yt.field_list = pre ++ f :: post)
    (hpre : ∀ e ∈ pre, e.field_name ≠ field_name)
    (hname : f.field_name = field_name)
    (hd : f.derived_func = none) :
    (libyt_field_derived_func env g args).result =
        PyResult.raised PyExc.AttributeError
          ("In field_list, field_name [ " ++ field_name ++
            " ], derived_func does not set properly.\n") ∧
      (∀ a, (libyt_field_derived_func env g args).result ≠ PyResult.array a) ∧
      (libyt_field_derived_func env g args).effects = [] := by
  have hf : scan_field_list g.g_param_yt.field_list field_name =
      FieldScan.null_func field_name := by
    rw [hfl, scan_field_list_first pre post f field_name hpre hname, hd, hname]
  have hrun : (libyt_field_derived_func env g args).result =
        PyResult.raised PyExc.AttributeError (msg_null_func field_name) ∧
      (libyt_field_derived_func env g args).effects = [] := by
    simp only [libyt_field_derived_func, hargs, hf]
    exact ⟨trivial, trivial⟩
  refine ⟨hrun.1, ?_, hrun.2⟩
  intro a ha
  rw [hrun.1] at ha
  cases ha

/-- C3, amended, at a registry whose first `density` entry has no routine; the grid id 3 is not
local. -/
theorem null_routine_fails_witness :
    (libyt_field_derived_func sample_env shadowed_globals
        [PyObject.PyLong 3, PyObject.PyUnicode "density"]).result =
      PyResult.raised PyExc.AttributeError
        ("In field_list, field_name [ " ++ "density" ++
          " ], derived_func does not set properly.\n") :=
  (null_routine_fails sample_env shadowed_globals
    [PyObject.PyLong 3, PyObject.PyUnicode "density"] 3 "density"
    [] [⟨"density", some fill_ones⟩] ⟨"density", none⟩ (by decide) rfl (by simp) rfl rfl).1

/-- C4, as stated, fails: grid 3 is not in the local table, yet for a field name that is not
in the registry the call reports the unknown field, and for a field whose first entry has no
routine it reports the missing routine; neither reports the grid. -/
theorem grid_not_local_fails_counterexample :
    (∀ x ∈ sample_globals.g_param_yt.grids_local, x.id ≠ 3) ∧
      (libyt_field_derived_func sample_env sample_globals
          [PyObject.PyLong 3, PyObject.PyUnicode "temperature"]).result =
        PyResult.raised PyExc.AttributeError
          "Cannot find field_name [ temperature ] in field_list.\n" ∧
      (∀ x ∈ shadowed_globals.g_param_yt.grids_local, x.id ≠ 3) ∧
      (libyt_field_derived_func sample_env shadowed_globals
          [PyObject.PyLong 3, PyObject.PyUnicode "density"]).result =
        PyResult.raised PyExc.AttributeError
          "In field_list, field_name [ density ], derived_func does not set properly.\n" := by
  refine ⟨?_, by decide, ?_, by decide⟩
  · simp [sample_globals, globals_of]
  · simp [shadowed_globals, globals_of]

/-- C4, amended: when no entry of the local grid table has id `gid` and the first registry
entry named `field_name` has a derivation routine, the call raises the attribute error "Cannot
find grid with GID [ gid ] on MPI rank [rank]." with the grid id and the rank of the process;
nothing is allocated and no routine is called. -/
theorem grid_not_local_fails (env : Env) (g : Globals) (args : List PyObject) (gid : Int)
    (field_name : String) (pre post : List yt_field) (f : yt_field) (d : DerivedFunc)
    (hargs : PyArg_ParseTuple_ls args = some (gid, field_name))
    (hfl : g.g_param_yt.field_list = pre ++ f :: post)
    (hpre : ∀ e ∈ pre, e.field_name ≠ field_name)
    (hname : f.field_name = field_name)
    (hd : f.derived_func = some d)
    (hgrid : ∀ x ∈ g.g_param_yt.grids_local, x.id ≠ gid) :
    (libyt_field_derived_func env g args).result =
        PyResult.raised PyExc.AttributeError
          ("Cannot find grid with GID [ " ++ toString gid ++ " ] on MPI rank [" ++
            toString env.MyRank ++ "].\n") ∧
      (libyt_field_derived_func env g args).effects = [] := by
  have hf : scan_field_list g.g_param_yt.field_list field_name = FieldScan.found d := by
    rw [hfl, scan_field_list_first pre post f field_name hpre hname, hd]
  have hg := scan_grids_local_none g.g_param_yt.grids_local gid hgrid
  have hrun : (libyt_field_derived_func env g args).result =
        PyResult.raised PyExc.AttributeError (msg_no_grid gid env.MyRank) ∧
      (libyt_field_derived_func env g args).effects = [] := by
    simp only [libyt_field_derived_func, hargs, hf, hg]
    exact ⟨trivial, trivial⟩
  exact hrun

/-- C4, amended, at the scenario of the specification: grid 3 is requested on rank 0, where
only grid 7 is local. -/
theorem grid_not_local_fails_witness :
    (libyt_field_derived_func sample_env sample_globals
        [PyObject.PyLong 3, PyObject.PyUnicode "density"]).result =
      PyResult.raised PyExc.AttributeError
        ("Cannot find grid with GID [ " ++ toString (3 : Int) ++ " ] on MPI rank [" ++
          toString sample_env.MyRank ++ "].\n") :=
  (grid_not_local_fails sample_env sample_globals
    [PyObject.PyLong 3, PyObject.PyUnicode "density"] 3 "density"
    [] [] ⟨"density", some fill_ones⟩ fill_ones (by decide) rfl (by simp) rfl rfl
    (by simp [sample_globals, globals_of])).1

/-- What holds of the contents in general. On every call that returns an array, the field
name resolves to the routine of the first registry entry of that name, the grid id to the
first local grid `x` with that id, and the cells handed to NumPy are what this routine leaves
in a buffer of `total_cells` cells that are all 0.0, where `total_cells` is the value of
`gridTotalSize`. That value is the product of the three dimensions of `x` only when the
product is below 2 ^ 31. The buffer has `total_cells` cells; a cell that none of the routine's
assignments addresses is 0.0, and a cell holds the value of the last assignment that
addresses it. -/
theorem derived_func_contents (env : Env) (g : Globals) (args : List PyObject)
    (a : PyArrayObject)
    (h : (libyt_field_derived_func env g args).result = PyResult.array a) :
    ∃ gid field_name derived_func pre x post total_cells zeros,
      PyArg_ParseTuple_ls args = some (gid, field_name) ∧
      scan_field_list g.g_param_yt.field_list field_name = FieldScan.found derived_func ∧
      g.g_param_yt.grids_local = pre ++ x :: post ∧ (∀ y ∈ pre, y.id ≠ gid) ∧ x.id = gid ∧
      total_cells = (gridTotalSize (copy_dimensions x)).toNat ∧
      (x.dimensions.1 * x.dimensions.2.1 * x.dimensions.2.2 < 2 ^ 31 →
        total_cells = x.dimensions.1 * x.dimensions.2.1 * x.dimensions.2.2) ∧
      zeros = List.replicate total_cells Double.zero ∧
      a.data = call_derived_func derived_func gid zeros ∧
      a.data.length = total_cells ∧
      (∀ i, i < total_cells → (∀ s ∈ derived_func gid zeros, s.index ≠ i) →
        a.data[i]? = some Double.zero) ∧
      (∀ before s after, derived_func gid zeros = before ++ s :: after →
        (∀ t ∈ after, t.index ≠ s.index) → s.index < total_cells →
        a.data[s.index]? = some s.value) := by
  obtain ⟨gid, field_name, d, dims, hargs, hf, hg⟩ := bridge_array_resolved env g args a h
  obtain ⟨pre, x, post, hl, hpre, hid, hdims⟩ :=
    scan_grids_local_some g.g_param_yt.grids_local gid dims hg
  subst hdims
  rw [bridge_resolved env g args gid field_name d _ hargs hf hg] at h
  rw [allocate_and_derive_array env g d gid _ a h] at h
  have hdata : a.data = call_derived_func d gid
      (List.replicate (gridTotalSize (copy_dimensions x)).toNat Double.zero) := by
    rw [(derive_and_wrap_array g d gid _ _ _ a h).2.2]
  refine ⟨gid, field_name, d, pre, x, post, (gridTotalSize (copy_dimensions x)).toNat,
    List.replicate (gridTotalSize (copy_dimensions x)).toNat Double.zero,
    hargs, hf, hl, hpre, hid, rfl, ?_, rfl, hdata, ?_, ?_, ?_⟩
  · intro hfit
    rw [gridTotalSize_of_fits x hfit]
    exact Int.toNat_ofNat _
  · rw [hdata, call_derived_func_length, List.length_replicate]
  · intro i hi hs
    rw [hdata, call_derived_func, foldl_write_untouched _ _ i hs]
    exact List.getElem?_replicate_of_lt hi
  · intro before s after hsplit hafter hlt
    rw [hdata, call_derived_func, hsplit]
    apply foldl_write_last before after s _ _ hafter
    rw [List.length_replicate]
    exact hlt

/-- The contents at a grid of 2 x 2 x 2 cells whose routine stores 1.0 in cell 0 only: the
array has eight cells, 1.0 followed by seven cells 0.0. -/
theorem derived_func_contents_sparse :
    (libyt_field_derived_func sample_env sparse_globals
        [PyObject.PyLong 7, PyObject.PyUnicode "density"]).result =
      PyResult.array ⟨3, [2, 2, 2], NPY_DOUBLE,
        Double.one :: List.replicate 7 Double.zero, true⟩ ∧
    ∃ gid field_name derived_func pre x post total_cells zeros,
      PyArg_ParseTuple_ls [PyObject.PyLong 7, PyObject.PyUnicode "density"] =
        some (gid, field_name) ∧
      scan_field_list sparse_globals.g_param_yt.field_list field_name =
        FieldScan.found derived_func ∧
      sparse_globals.g_param_yt.grids_local = pre ++ x :: post ∧
      (∀ y ∈ pre, y.id ≠ gid) ∧ x.id = gid ∧
      total_cells = (gridTotalSize (copy_dimensions x)).toNat ∧
      (x.dimensions.1 * x.dimensions.2.1 * x.dimensions.2.2 < 2 ^ 31 →
        total_cells = x.dimensions.1 * x.dimensions.2.1 * x.dimensions.2.2) ∧
      zeros = List.replicate total_cells Double.zero ∧
      (Double.one :: List.replicate 7 Double.zero) = call_derived_func derived_func gid zeros ∧
      (Double.one :: List.replicate 7 Double.zero).length = total_cells ∧
      (∀ i, i < total_cells → (∀ s ∈ derived_func gid zeros, s.index ≠ i) →
        (Double.one :: List.replicate 7 Double.zero)[i]? = some Double.zero) ∧
      (∀ before s after, derived_func gid zeros = before ++ s :: after →
        (∀ t ∈ after, t.index ≠ s.index) → s.index < total_cells →
        (Double.one :: List.replicate 7 Double.zero)[s.index]? = some s.value) :=
  ⟨by decide,
    derived_func_contents sample_env sparse_globals
      [PyObject.PyLong 7, PyObject.PyUnicode "density"]
      ⟨3, [2, 2, 2], NPY_DOUBLE, Double.one :: List.replicate 7 Double.zero, true⟩
      (by decide)⟩

/-- The scenario of the specification: a routine that stores 1.0 in every cell of the
2 x 2 x 2 grid yields eight cells 1.0, although fresh memory holds other bit patterns. -/
theorem derived_func_all_ones :
    (libyt_field_derived_func sample_env sample_globals
        [PyObject.PyLong 7, PyObject.PyUnicode "density"]).result =
      PyResult.array ⟨3, [2, 2, 2], NPY_DOUBLE, List.replicate 8 Double.one, true⟩ := by
  decide

/-- C5 fails on the code. The grid of 8 x 3 x 178956971 cells has 4294967304 cells, but
`gridTotalSize`, computed in `int`, is 8: the allocator is asked for 64 bytes, eight cells
are set to 0.0 and handed to the routine, and the call returns an array of shape
(8, 3, 178956971) over these eight cells. Cell 8 of the array, which the routine has not
written, is no cell of the buffer and so was never set to 0.0. -/
theorem contents_beyond_buffer :
    (8 * 3 * 178956971 : Nat) = 4294967304 ∧
    gridTotalSize (copy_dimensions ⟨7, (8, 3, 178956971)⟩) = 8 ∧
    (libyt_field_derived_func sample_env wrapped_grid_globals
        [PyObject.PyLong 7, PyObject.PyUnicode "density"]).effects =
      [Effect.malloc 64, Effect.call first_cell_only 7 (List.replicate 8 Double.zero)] ∧
    (libyt_field_derived_func sample_env wrapped_grid_globals
        [PyObject.PyLong 7, PyObject.PyUnicode "density"]).result =
      PyResult.array ⟨3, [8, 3, 178956971], NPY_DOUBLE,
        Double.one :: List.replicate 7 Double.zero, true⟩ ∧
    (Double.one :: List.replicate 7 Double.zero).length = 8 ∧
    (Double.one :: List.replicate 7 Double.zero)[8]? = none :=
  ⟨by decide, by decide, rfl, by decide, by decide, by decide⟩

/-- C9: on every argument tuple that is not a pair of an integer object and a string object
the call raises the value error "Wrong input type, expect to be libyt.derived_func(int, str).",
whatever registry and grid table are in place; nothing is allocated and no routine is called. -/
theorem wrong_arguments_fail (env : Env) (g : Globals) (args : List PyObject)
    (h : ¬ ∃ v s, args = [PyObject.PyLong v, PyObject.PyUnicode s]) :
    (libyt_field_derived_func env g args).result =
        PyResult.raised PyExc.ValueError
          "Wrong input type, expect to be libyt.derived_func(int, str)." ∧
      (libyt_field_derived_func env g args).effects = [] := by
  have hparse : PyArg_ParseTuple_ls args = none := by
    unfold PyArg_ParseTuple_ls
    split
    · rename_i v s
      exact absurd ⟨v, s, rfl⟩ h
    · rfl
  simp only [libyt_field_derived_func, hparse]
  exact ⟨rfl, trivial⟩

/-- C9 at three ill-formed calls against the scenario of the specification, where the
well-formed call would succeed: arguments in the wrong order, a float as grid id, and a
missing field name. -/
theorem wrong_arguments_fail_witness :
    (libyt_field_derived_func sample_env sample_globals
        [PyObject.PyUnicode "density", PyObject.PyLong 7]).result =
      PyResult.raised PyExc.ValueError
        "Wrong input type, expect to be libyt.derived_func(int, str)." ∧
    (libyt_field_derived_func sample_env sample_globals
        [PyObject.PyFloat Double.one, PyObject.PyUnicode "density"]).result =
      PyResult.raised PyExc.ValueError
        "Wrong input type, expect to be libyt.derived_func(int, str)." ∧
    (libyt_field_derived_func sample_env sample_globals [PyObject.PyLong 7]).result =
      PyResult.raised PyExc.ValueError
        "Wrong input type, expect to be libyt.derived_func(int, str)." :=
  ⟨(wrong_arguments_fail sample_env sample_globals _ (by simp)).1,
    (wrong_arguments_fail sample_env sample_globals _ (by simp)).1,
    (wrong_arguments_fail sample_env sample_globals _ (by simp)).1⟩

/-! ## Claims on `yt_get_particlesPtr` -/

/-- C6: the three checks are made in a fixed order and the first unmet one is reported. With
`libyt_initialized` false the call returns `YT_FAIL` with the diagnostic that asks for
`yt_init()` (NotInitialized), whatever the other flag and the species count. With
`libyt_initialized` true and `param_yt_set` false it returns `YT_FAIL` with the diagnostic
that asks for `yt_set_parameter()` (ParametersNotSet), whatever the species count. With both
flags true and `num_species <= 0` it returns `YT_FAIL` with the diagnostic that reports the
species count (NoParticleSpecies). -/
theorem particlesPtr_check_order (g : Globals) :
    (g.g_param_libyt.libyt_initialized = false →
      (yt_get_particlesPtr g).status = YT_FAIL ∧
      (yt_get_particlesPtr g).log = [⟨LogLevel.error,
        "Please invoke yt_init() before calling yt_get_particlesPtr()!\n"⟩]) ∧
    (g.g_param_libyt.libyt_initialized = true → g.g_param_libyt.param_yt_set = false →
      (yt_get_particlesPtr g).status = YT_FAIL ∧
      (yt_get_particlesPtr g).log = [⟨LogLevel.error,
        "Please invoke yt_set_parameter() before calling yt_get_particlesPtr()!\n"⟩]) ∧
    (g.g_param_libyt.libyt_initialized = true → g.g_param_libyt.param_yt_set = true →
      g.g_param_yt.num_species ≤ 0 →
      (yt_get_particlesPtr g).status = YT_FAIL ∧
      (yt_get_particlesPtr g).log = [⟨LogLevel.error,
        "num_species == " ++ toString g.g_param_yt.num_species ++
          " <= 0, you don't need to input particle_list, and it is also not initialized!\n"⟩]) := by
  refine ⟨?_, ?_, ?_⟩
  · intro h1
    simp only [yt_get_particlesPtr, h1]
    exact ⟨rfl, rfl⟩
  · intro h1 h2
    simp only [yt_get_particlesPtr, h1, h2]
    exact ⟨rfl, rfl⟩
  · intro h1 h2 h3
    simp only [yt_get_particlesPtr, h1, h2, h3]
    exact ⟨rfl, rfl⟩

/-- C6 at three states: nothing initialised and five species; initialised, parameters not set
and five species; both flags set and a species count of -2. -/
theorem particlesPtr_check_order_witness :
    (yt_get_particlesPtr (lifecycle_globals false false 5)).log = [⟨LogLevel.error,
      "Please invoke yt_init() before calling yt_get_particlesPtr()!\n"⟩] ∧
    (yt_get_particlesPtr (lifecycle_globals true false 5)).log = [⟨LogLevel.error,
      "Please invoke yt_set_parameter() before calling yt_get_particlesPtr()!\n"⟩] ∧
    (yt_get_particlesPtr (lifecycle_globals true true (-2))).status = YT_FAIL :=
  ⟨((particlesPtr_check_order (lifecycle_globals false false 5)).1 rfl).2,
    ((particlesPtr_check_order (lifecycle_globals true false 5)).2.1 rfl rfl).2,
    ((particlesPtr_check_order (lifecycle_globals true true (-2))).2.2 rfl rfl
      (by decide)).1⟩

/-- C7: the call returns `YT_SUCCESS` exactly when `libyt_initialized` and `param_yt_set` are
true and `num_species > 0`. In that case the pointer stored for the caller is the very
`particle_list` of `g_param_yt`, the flag `get_particlesPtr` is true afterwards, and
`libyt_initialized`, `param_yt_set`, `num_species`, `particle_list` and all of `g_param_yt` are
as before. -/
theorem particlesPtr_success (g : Globals) :
    ((yt_get_particlesPtr g).status = YT_SUCCESS ↔
      (g.g_param_libyt.libyt_initialized = true ∧ g.g_param_libyt.param_yt_set = true ∧
        0 < g.g_param_yt.num_species)) ∧
    ((yt_get_particlesPtr g).status = YT_SUCCESS →
      (yt_get_particlesPtr g).particle_list = some g.g_param_yt.particle_list ∧
      (yt_get_particlesPtr g).globals.g_param_libyt.get_particlesPtr = true ∧
      (yt_get_particlesPtr g).globals.g_param_libyt.libyt_initialized =
        g.g_param_libyt.libyt_initialized ∧
      (yt_get_particlesPtr g).globals.g_param_libyt.param_yt_set =
        g.g_param_libyt.param_yt_set ∧
      (yt_get_particlesPtr g).globals.g_param_yt.num_species = g.g_param_yt.num_species ∧
      (yt_get_particlesPtr g).globals.g_param_yt.particle_list = g.g_param_yt.particle_list ∧
      (yt_get_particlesPtr g).globals.g_param_yt = g.g_param_yt) := by
  cases h1 : g.g_param_libyt.libyt_initialized with
  | false => simp [yt_get_particlesPtr, h1, YT_ABORT_particlesPtr]
  | true =>
    cases h2 : g.g_param_libyt.param_yt_set with
    | false => simp [yt_get_particlesPtr, h1, h2, YT_ABORT_particlesPtr]
    | true =>
      by_cases h3 : g.g_param_yt.num_species ≤ 0
      · have h4 : ¬ 0 < g.g_param_yt.num_species := by omega
        simp [yt_get_particlesPtr, h1, h2, h3, h4, YT_ABORT_particlesPtr]
      · have h4 : 0 < g.g_param_yt.num_species := by omega
        simp [yt_get_particlesPtr, h1, h2, h3, h4]

/-- C7 at a state with both flags set, two species and the particle storage at address
4096. -/
theorem particlesPtr_success_witness :
    (yt_get_particlesPtr (lifecycle_globals true true 2)).status = YT_SUCCESS ∧
    (yt_get_particlesPtr (lifecycle_globals true true 2)).particle_list = some ⟨4096⟩ ∧
    (yt_get_particlesPtr (lifecycle_globals true true 2)).globals.g_param_libyt.get_particlesPtr
      = true :=
  ⟨by decide,
    ((particlesPtr_success (lifecycle_globals true true 2)).2 (by decide)).1,
    ((particlesPtr_success (lifecycle_globals true true 2)).2 (by decide)).2.1⟩

/-! ## Claims on the bootstrap -/

theorem import_libyt_fails (rt : PyRuntime) (h1 : "libyt" ∉ rt.inittab)
    (h2 : "libyt" ∉ rt.path_modules) : PyRun_SimpleString rt "import libyt\n" = -1 := by
  have ht : import_target "import libyt\n" = some "libyt" := by decide
  simp [PyRun_SimpleString, ht, h1, h2]

/-- C10, as stated, fails. `create_libyt_module` called on an interpreter that has already
started returns `YT_SUCCESS`. And `init_libyt_module` called without any registration returns
`YT_SUCCESS` on a started interpreter that finds a module named `libyt` on its path. -/
theorem bootstrap_order_counterexample :
    (fresh_runtime.started = true ∧
      (create_libyt_module fresh_runtime).status = YT_SUCCESS) ∧
    (stray_runtime.started = true ∧ stray_runtime.inittab = [] ∧
      (init_libyt_module sample_globals stray_runtime).status = YT_SUCCESS) := by
  decide

/-- C10, amended: `init_libyt_module`, called on an interpreter that has started while `libyt`
is neither registered nor found elsewhere by the interpreter, returns `YT_FAIL` through the
failed statement `import libyt`, with the diagnostic of the module import and without running
the import of the script; and `create_libyt_module` makes no check of the interpreter and
returns `YT_SUCCESS` in every state. -/
theorem bootstrap_order (g : Globals) (rt : PyRuntime) :
    (rt.started = true → "libyt" ∉ rt.inittab → "libyt" ∉ rt.path_modules →
      (init_libyt_module g rt).status = YT_FAIL ∧
      (init_libyt_module g rt).log = [⟨LogLevel.error, "Import libyt module ... failed!\n"⟩] ∧
      (init_libyt_module g rt).commands = ["import libyt\n"]) ∧
    (create_libyt_module rt).status = YT_SUCCESS := by
  refine ⟨?_, rfl⟩
  intro _ h1 h2
  have hrun := import_libyt_fails rt h1 h2
  simp only [init_libyt_module, hrun]
  exact ⟨rfl, rfl, rfl⟩

/-- C10, amended, at an interpreter that has started without a registration of `libyt`. -/
theorem bootstrap_order_witness :
    fresh_runtime.started = true ∧
    (init_libyt_module sample_globals fresh_runtime).status = YT_FAIL ∧
    (create_libyt_module fresh_runtime).status = YT_SUCCESS :=
  ⟨rfl, ((bootstrap_order sample_globals fresh_runtime).1 rfl (by decide) (by decide)).1,
    (bootstrap_order sample_globals fresh_runtime).2⟩

/-- C11, as stated, fails: with `libyt` already registered, a further call of
`create_libyt_module` returns `YT_SUCCESS` and leaves a table that differs from the one before
and holds two `libyt` entries. -/
theorem double_registration_counterexample :
    "libyt" ∈ registered_runtime.inittab ∧
    (create_libyt_module registered_runtime).status = YT_SUCCESS ∧
    (create_libyt_module registered_runtime).runtime.inittab = ["libyt", "libyt"] ∧
    (create_libyt_module registered_runtime).runtime.inittab ≠ registered_runtime.inittab := by
  decide

/-- C11, amended: `create_libyt_module` makes no check for an earlier registration. In every
state of the table, also when `libyt` is registered already, it returns `YT_SUCCESS`, keeps the
entries that are there and adds one further `libyt` entry at the end; nothing else of the
interpreter is touched and no statement is run. -/
theorem double_registration (rt : PyRuntime) :
    (create_libyt_module rt).status = YT_SUCCESS ∧
    (create_libyt_module rt).runtime.inittab = rt.inittab ++ ["libyt"] ∧
    (create_libyt_module rt).runtime.inittab.count "libyt" = rt.inittab.count "libyt" + 1 ∧
    (create_libyt_module rt).runtime.started = rt.started ∧
    (create_libyt_module rt).runtime.path_modules = rt.path_modules ∧
    (create_libyt_module rt).commands = [] := by
  refine ⟨rfl, rfl, ?_, rfl, rfl, rfl⟩
  simp [create_libyt_module, PyImport_AppendInittab, List.count_append]

/-! ## Further claims on `libyt_field_derived_func` -/

/-- C13: whatever the arguments and however the call ends (array, Python exception, or the
store through a null pointer), the globals after the call are the globals before it: the field
registry and its length, the local grid table and its length, the species count, the particle
list pointer and the three lifecycle flags are unchanged. -/
theorem derived_func_frame (env : Env) (g : Globals) (args : List PyObject) :
    (libyt_field_derived_func env g args).globals = g ∧
    (libyt_field_derived_func env g args).globals.g_param_yt.num_fields =
      g.g_param_yt.num_fields ∧
    (libyt_field_derived_func env g args).globals.g_param_yt.num_grids_local =
      g.g_param_yt.num_grids_local ∧
    (libyt_field_derived_func env g args).globals.g_param_yt.grids_local =
      g.g_param_yt.grids_local ∧
    (libyt_field_derived_func env g args).globals.g_param_yt.num_species =
      g.g_param_yt.num_species ∧
    (libyt_field_derived_func env g args).globals.g_param_yt.particle_list =
      g.g_param_yt.particle_list ∧
    (libyt_field_derived_func env g args).globals.g_param_libyt = g.g_param_libyt := by
  have h := bridge_keeps_globals env g args
  rw [h]
  exact ⟨rfl, rfl, rfl, rfl, rfl, rfl, rfl⟩

/-- C14 fails on the code. For a grid of 2048 x 2048 x 512 cells the exact product is
2147483648, but `gridTotalSize`, computed in `int`, is -2147483648. The allocator is asked for
18446744056529682432 bytes and returns `NULL`, no cell is set to 0.0, and the array of shape
(2048, 2048, 512) is built over a buffer without cells (the routine here stores nothing). -/
theorem gridTotalSize_wraps :
    gridTotalSize (copy_dimensions ⟨7, (2048, 2048, 512)⟩) = -2147483648 ∧
    ((2048 * 2048 * 512 : Nat) : Int) = 2147483648 ∧
    to_size_t (gridTotalSize (copy_dimensions ⟨7, (2048, 2048, 512)⟩) * sizeof_double) =
      18446744056529682432 ∧
    zero_fill (gridTotalSize (copy_dimensions ⟨7, (2048, 2048, 512)⟩)) [] = [] ∧
    (libyt_field_derived_func sample_env big_grid_globals
        [PyObject.PyLong 7, PyObject.PyUnicode "density"]).result =
      PyResult.array ⟨3, [2048, 2048, 512], NPY_DOUBLE, [], true⟩ := by
  decide

/-- C15 fails on the code. With an exhausted heap `malloc` returns `NULL` for the 64 bytes of a
2 x 2 x 2 grid, and the call ends in the store `output[0] = 0` through that null pointer. For
the grid of 2048 x 2048 x 512 cells `malloc` returns `NULL` as well, there is no iteration of
the initialisation loop, the routine (one that stores nothing) is called, and the call goes
on to return an array. -/
theorem unchecked_malloc :
    (malloc full_env (to_size_t (gridTotalSize (2, 2, 2) * sizeof_double)) = none ∧
      (libyt_field_derived_func full_env sample_globals
          [PyObject.PyLong 7, PyObject.PyUnicode "density"]).result = PyResult.null_store) ∧
    (malloc sample_env (to_size_t (gridTotalSize (2048, 2048, 512) * sizeof_double)) = none ∧
      (libyt_field_derived_func sample_env big_grid_globals
          [PyObject.PyLong 7, PyObject.PyUnicode "density"]).result =
        PyResult.array ⟨3, [2048, 2048, 512], NPY_DOUBLE, [], true⟩) := by
  decide

/-- What holds of the trace in general: a call that raises a Python exception has called
neither the allocator nor a routine; a call that returns an array has called the allocator
once and then, once, the routine of the first matching field with the grid id and a buffer of
`gridTotalSize` cells that are all 0.0; and the allocator had returned a buffer unless
`gridTotalSize` is negative. -/
theorem bridge_trace (env : Env) (g : Globals) (args : List PyObject) :
    (∀ exc msg, (libyt_field_derived_func env g args).result = PyResult.raised exc msg →
      (libyt_field_derived_func env g args).effects = []) ∧
    (∀ a, (libyt_field_derived_func env g args).result = PyResult.array a →
      ∃ gid field_name d dims,
        PyArg_ParseTuple_ls args = some (gid, field_name) ∧
        scan_field_list g.g_param_yt.field_list field_name = FieldScan.found d ∧
        scan_grids_local g.g_param_yt.grids_local gid = some dims ∧
        (libyt_field_derived_func env g args).effects =
          [Effect.malloc (to_size_t (gridTotalSize dims * sizeof_double)),
            Effect.call d gid (List.replicate (gridTotalSize dims).toNat Double.zero)] ∧
        a.data = call_derived_func d gid
          (List.replicate (gridTotalSize dims).toNat Double.zero) ∧
        (0 ≤ gridTotalSize dims →
          (malloc env (to_size_t (gridTotalSize dims * sizeof_double))).isSome = true)) :=
  ⟨fun exc msg h => bridge_raised_trace env g args exc msg h,
    fun a h => bridge_array_trace env g args a h⟩

/-- C18 fails on the code. For the grid of 2048 x 2048 x 512 cells the allocator returns
`NULL`, so no buffer is allocated and none is set to 0.0, and still the routine of `density`
(one that stores nothing) is called, with a buffer that has no cells, and the call returns an
array. -/
theorem routine_called_without_buffer :
    malloc sample_env 18446744056529682432 = none ∧
    (libyt_field_derived_func sample_env big_grid_globals
        [PyObject.PyLong 7, PyObject.PyUnicode "density"]).effects =
      [Effect.malloc 18446744056529682432, Effect.call stores_nothing 7 []] ∧
    (∃ a, (libyt_field_derived_func sample_env big_grid_globals
        [PyObject.PyLong 7, PyObject.PyUnicode "density"]).result = PyResult.array a) :=
  ⟨by decide, rfl, ⟨_, rfl⟩⟩

/-! ## Further claims on `yt_get_particlesPtr` and on the bootstrap -/

/-- C16: `init_libyt_module` returns `YT_SUCCESS` exactly when the statement `import libyt`
and the statement that imports the script both run without error. When `import libyt` fails
the call returns `YT_FAIL` and `import libyt` is the only statement handed to the interpreter.
When `import libyt` runs and the import of the script fails the call returns `YT_FAIL` with
a diagnostic that names the script and asks not to include the `.py` extension. -/
theorem init_module_outcome (g : Globals) (rt : PyRuntime) :
    ((init_libyt_module g rt).status = YT_SUCCESS ↔
      (PyRun_SimpleString rt "import libyt\n" = 0 ∧
        PyRun_SimpleString rt ("import " ++ g.g_param_libyt.script) = 0)) ∧
    (PyRun_SimpleString rt "import libyt\n" ≠ 0 →
      (init_libyt_module g rt).status = YT_FAIL ∧
      (init_libyt_module g rt).commands = ["import libyt\n"] ∧
      (init_libyt_module g rt).log = [⟨LogLevel.error, "Import libyt module ... failed!\n"⟩]) ∧
    (PyRun_SimpleString rt "import libyt\n" = 0 →
      PyRun_SimpleString rt ("import " ++ g.g_param_libyt.script) ≠ 0 →
      (init_libyt_module g rt).status = YT_FAIL ∧
      (init_libyt_module g rt).commands =
        ["import libyt\n", "import " ++ g.g_param_libyt.script] ∧
      (init_libyt_module g rt).log =
        [⟨LogLevel.debug, "Import libyt module ... done\n"⟩,
          ⟨LogLevel.error, "Importing YT inline analysis script \"" ++ g.g_param_libyt.script ++
            "\" ... failed (please do not include the \".py\" extension)!\n"⟩]) := by
  by_cases hA : PyRun_SimpleString rt "import libyt\n" = 0
  · by_cases hB : PyRun_SimpleString rt ("import " ++ g.g_param_libyt.script) = 0
    · simp [init_libyt_module, CallYT, hA, hB]
    · simp [init_libyt_module, CallYT, msg_script_failed, hA, hB]
  · simp [init_libyt_module, hA]

/-- C16 at three started interpreters: one with `libyt` registered and the script on its path,
one without a registration, one with `libyt` registered and no script. -/
theorem init_module_outcome_witness :
    (init_libyt_module sample_globals ready_runtime).status = YT_SUCCESS ∧
    (init_libyt_module sample_globals fresh_runtime).commands = ["import libyt\n"] ∧
    (init_libyt_module sample_globals scriptless_runtime).log =
      [⟨LogLevel.debug, "Import libyt module ... done\n"⟩,
        ⟨LogLevel.error, "Importing YT inline analysis script \"" ++
          sample_globals.g_param_libyt.script ++
          "\" ... failed (please do not include the \".py\" extension)!\n"⟩] :=
  ⟨(init_module_outcome sample_globals ready_runtime).1.mpr (by decide),
    ((init_module_outcome sample_globals fresh_runtime).2.1 (by decide)).2.1,
    ((init_module_outcome sample_globals scriptless_runtime).2.2 (by decide) (by decide)).2.2⟩

/-- C17: whenever `yt_get_particlesPtr` returns `YT_FAIL`, nothing is stored through the
caller's argument and the globals are left as they were: the flag `get_particlesPtr`, the
flags `libyt_initialized` and `param_yt_set`, the species count and the particle list
pointer are unchanged; and the one line logged is an error. -/
theorem particlesPtr_failure_atomic (g : Globals)
    (h : (yt_get_particlesPtr g).status = YT_FAIL) :
    (yt_get_particlesPtr g).particle_list = none ∧
    (yt_get_particlesPtr g).globals = g ∧
    (yt_get_particlesPtr g).globals.g_param_libyt.get_particlesPtr =
      g.g_param_libyt.get_particlesPtr ∧
    (yt_get_particlesPtr g).globals.g_param_libyt.libyt_initialized =
      g.g_param_libyt.libyt_initialized ∧
    (yt_get_particlesPtr g).globals.g_param_libyt.param_yt_set =
      g.g_param_libyt.param_yt_set ∧
    (yt_get_particlesPtr g).globals.g_param_yt.num_species = g.g_param_yt.num_species ∧
    (yt_get_particlesPtr g).globals.g_param_yt.particle_list = g.g_param_yt.particle_list ∧
    (∃ text, (yt_get_particlesPtr g).log = [⟨LogLevel.error, text⟩]) := by
  cases h1 : g.g_param_libyt.libyt_initialized with
  | false => simp [yt_get_particlesPtr, h1, YT_ABORT_particlesPtr]
  | true =>
    cases h2 : g.g_param_libyt.param_yt_set with
    | false => simp [yt_get_particlesPtr, h1, h2, YT_ABORT_particlesPtr]
    | true =>
      by_cases h3 : g.g_param_yt.num_species ≤ 0
      · simp [yt_get_particlesPtr, h1, h2, h3, YT_ABORT_particlesPtr]
      · simp [yt_get_particlesPtr, h1, h2, h3] at h

/-- C17 at a state with both flags set and no species: the call fails, stores no pointer and
leaves the flag `get_particlesPtr` false. -/
theorem particlesPtr_failure_atomic_witness :
    (yt_get_particlesPtr (lifecycle_globals true true 0)).status = YT_FAIL ∧
    (yt_get_particlesPtr (lifecycle_globals true true 0)).particle_list = none ∧
    (yt_get_particlesPtr (lifecycle_globals true true 0)).globals.g_param_libyt.get_particlesPtr
      = false :=
  ⟨by decide,
    (particlesPtr_failure_atomic (lifecycle_globals true true 0) (by decide)).1,
    (particlesPtr_failure_atomic (lifecycle_globals true true 0) (by decide)).2.2.1⟩

theorem strlen_CallYT (script : String) : strlen (CallYT script) = 7 + strlen script := by
  have h7 : String.utf8Len "import ".data = 7 := by decide
  simp only [strlen, CallYT, String.utf8ByteSize, String.utf8ByteSize.go_eq]
  show String.utf8Len ("import " ++ script).data = 7 + String.utf8Len script.data
  rw [String.data_append, String.utf8Len_append, h7]

/-- C19: for every script name the statement built is `import ` followed by the name, and its
length in bytes plus one for the terminator is exactly 8 plus the length of the name, hence
not more than that. Whenever 8 plus the length of the name is representable as an `int`, that
number is the value of `CallYT_CommandWidth`, the size in bytes of the buffer, so the
formatted write ends at the last byte of the buffer. -/
theorem import_statement_fits (script : String) :
    CallYT script = "import " ++ script ∧
    strlen ("import " ++ script) + 1 ≤ 8 + strlen script ∧
    strlen ("import " ++ script) + 1 = 8 + strlen script ∧
    (8 + strlen script < 2 ^ 31 →
      CallYT_CommandWidth script = ((8 + strlen script : Nat) : Int) ∧
      ((strlen (CallYT script) + 1 : Nat) : Int) ≤ CallYT_CommandWidth script) := by
  have hlen := strlen_CallYT script
  unfold CallYT at hlen
  refine ⟨rfl, by omega, by omega, ?_⟩
  intro hfit
  have hw : CallYT_CommandWidth script = ((8 + strlen script : Nat) : Int) := by
    unfold CallYT_CommandWidth
    rw [wrap_int_of_fits _ (by omega) (by omega)]
    push_cast
    rfl
  refine ⟨hw, ?_⟩
  rw [hw]
  unfold CallYT
  omega

/-- C19 at the script name `inline_script` of 13 bytes: the statement has 20 bytes and the
buffer 21. -/
theorem import_statement_fits_witness :
    CallYT_CommandWidth "inline_script" = 21 ∧
    ((strlen (CallYT "inline_script") + 1 : Nat) : Int) ≤ CallYT_CommandWidth "inline_script" :=
  (import_statement_fits "inline_script").2.2.2 (by decide)

end Libyt
